import Mathlib

/-!
# Bus booking frontend: seat map, eligibility and booking form

A shallow embedding of the logic of the React components
`SeatLayout.jsx`, `AddBooking.jsx` (both copies), `PaymentPage.jsx`,
`BookingList.jsx`, `TransferSeat.jsx` and `AddBus.jsx`, followed by the
properties established about them.

Conventions of the embedding

* A JavaScript string is a Lean `String`. `slice` on a string counts UTF-16
  code units: a character outside the Basic Multilingual Plane takes two, and
  a slice that cuts it in two leaves its second code unit, a lone surrogate,
  in front (`Sliced`).
* A JavaScript Number is modelled by `JSNumber`; only integral values occur.
  `toNumber` is the IEEE-754 binary64 rounding (to nearest, ties to even) of a
  mathematical integer, so every `fin v` that the embedding produces is a
  value a double can hold. Negative zero is identified with zero.
* React state is an explicit record; an event handler is a function from the
  state it closes over to the next state and the list of effects it issues.
* A `Date` is its time value in minutes since the epoch; the local-time getters
  take the offset of local time from UTC as a parameter.
-/

set_option linter.unusedVariables false

namespace BusBooking

/-! ## JavaScript Numbers restricted to integral values -/

/-- A JavaScript Number with an integral or non-finite value. -/
inductive JSNumber where
  | nan
  | negInf
  | fin (v : Int)
  | posInf
deriving DecidableEq, Repr

/-- Number of binary digits of `n`, counted with at most `fuel` halvings. -/
def bitLengthAux : Nat → Nat → Nat
  | 0, _ => 0
  | fuel + 1, n => if n = 0 then 0 else bitLengthAux fuel (n / 2) + 1

/-- Number of binary digits of `n`; `n` halvings always suffice. -/
def bitLength (n : Nat) : Nat := bitLengthAux n n

/-- Rounding of a natural number to the nearest binary64 value, ties to even
(53 significant bits). A result of more than 1024 binary digits stands for
overflow. -/
def roundNat (n : Nat) : Nat :=
  if n < 2 ^ 53 then n
  else
    let e := bitLength n - 53
    let q := n / 2 ^ e
    let r := n % 2 ^ e
    let q1 := if 2 ^ e < 2 * r ∨ (2 * r = 2 ^ e ∧ q % 2 = 1) then q + 1 else q
    q1 * 2 ^ e

/-- The Number value for a mathematical integer. -/
def toNumber (z : Int) : JSNumber :=
  let m := roundNat z.natAbs
  if 1024 < bitLength m then (if z < 0 then JSNumber.negInf else JSNumber.posInf)
  else JSNumber.fin (if z < 0 then -(m : Int) else (m : Int))

namespace JSNumber

/-- Subtraction of Numbers, `a - b`. -/
def sub : JSNumber → JSNumber → JSNumber
  | nan, _ => nan
  | _, nan => nan
  | posInf, posInf => nan
  | negInf, negInf => nan
  | posInf, _ => posInf
  | negInf, _ => negInf
  | fin _, posInf => negInf
  | fin _, negInf => posInf
  | fin a, fin b => toNumber (a - b)

/-- The test `0 < v` on a Number; false on NaN. -/
def isPositive : JSNumber → Bool
  | posInf => true
  | fin v => decide (0 < v)
  | _ => false

/-- Truthiness of a Number: every value but NaN and zero. -/
def truthy : JSNumber → Bool
  | nan => false
  | fin v => decide (v ≠ 0)
  | _ => true

end JSNumber

/-! ## Strings and `parseInt` -/

/-- The white space that `parseInt` skips at the start of its input. -/
def isStrWhiteSpace (c : Char) : Bool :=
  let v := c.toNat
  v = 9 || v = 10 || v = 11 || v = 12 || v = 13 || v = 32 || v = 160 ||
  v = 0x1680 || (0x2000 ≤ v && v ≤ 0x200A) || v = 0x2028 || v = 0x2029 ||
  v = 0x202F || v = 0x205F || v = 0x3000 || v = 0xFEFF

/-- Whether the character is one of the decimal digits `0` to `9`. -/
def isDecimalDigit (c : Char) : Bool :=
  decide (48 ≤ c.toNat) && decide (c.toNat ≤ 57)

/-- Value of a character as a digit in radixes up to 36, if it has one. -/
def digitValue (c : Char) : Option Nat :=
  let v := c.toNat
  if 48 ≤ v ∧ v ≤ 57 then some (v - 48)
  else if 97 ≤ v ∧ v ≤ 122 then some (v - 97 + 10)
  else if 65 ≤ v ∧ v ≤ 90 then some (v - 65 + 10)
  else none

/-- Whether the character is a digit of the given radix. -/
def isRadixDigit (radix : Nat) (c : Char) : Bool :=
  match digitValue c with
  | some d => decide (d < radix)
  | none => false

/-- The mathematical integer written by a run of radix digits. -/
def digitsValue (radix : Nat) (cs : List Char) : Nat :=
  cs.foldl (fun acc c => acc * radix + (digitValue c).getD 0) 0

/-- The builtin `parseInt(string)` with no radix argument, on the characters of
the string: skip white space, read a sign, switch to radix 16 after `0x` or
`0X`, read the longest run of digits; NaN when that run is empty. -/
def parseIntChars (cs : List Char) : JSNumber :=
  let s := cs.dropWhile isStrWhiteSpace
  let negative := s.head? = some '-'
  let s := if s.head? = some '-' ∨ s.head? = some '+' then s.tail else s
  let hex := s.take 2 = ['0', 'x'] ∨ s.take 2 = ['0', 'X']
  let radix := if hex then 16 else 10
  let s := if hex then s.drop 2 else s
  let z := s.takeWhile (isRadixDigit radix)
  if z = [] then JSNumber.nan
  else
    let m : Int := digitsValue radix z
    toNumber (if negative then -m else m)

/-- The builtin `parseInt` applied to a string. -/
def parseInt (s : String) : JSNumber := parseIntChars s.data

/-- The value of a string slice: the characters that remain and, when the cut
falls inside a character that takes two UTF-16 code units, that character,
whose second code unit (a lone low surrogate) then stands first. -/
structure Sliced where
  cut : Option Char
  rest : List Char
deriving DecidableEq, Repr

/-- What remains of a list of characters after `start` UTF-16 code units: a
character below `0x10000` is one code unit, every other character is two. -/
def sliceUnits : List Char → Nat → Sliced
  | cs, 0 => { cut := none, rest := cs }
  | [], _ + 1 => { cut := none, rest := [] }
  | c :: cs, n + 1 =>
    if c.toNat < 0x10000 then sliceUnits cs n
    else
      match n with
      | 0 => { cut := some c, rest := cs }
      | m + 1 => sliceUnits cs m

/-- The method `slice(start)` of a string. -/
def strSlice (s : String) (start : Nat) : Sliced := sliceUnits s.data start

/-- The builtin `parseInt` applied to the value of a slice. A lone surrogate is
no white space, no sign and no digit, so behind one there is no integer to
read. -/
def parseIntSliced (x : Sliced) : JSNumber :=
  match x.cut with
  | some _ => JSNumber.nan
  | none => parseIntChars x.rest

/-! ## Arrays -/

/-- The method `slice(start, end)` of an array, for non-negative bounds. -/
def arrSlice {α : Type} (xs : List α) (start stop : Nat) : List α :=
  (xs.take stop).drop start

/-- Insertion of `a` in front of the first element that the comparator does not
put before it. -/
def sortInsert {α : Type} (cmp : α → α → JSNumber) (a : α) : List α → List α
  | [] => [a]
  | b :: l => if (cmp a b).isPositive then b :: sortInsert cmp a l else a :: b :: l

/-- The method `sort(comparator)` of an array: a stable sort. An element goes
after another exactly when the comparator answers a positive Number; a NaN
answer counts as zero. For a comparator that is not a consistent ordering the
language leaves the order to the engine, and this is one admissible choice. -/
def arrSort {α : Type} (cmp : α → α → JSNumber) : List α → List α
  | [] => []
  | a :: l => sortInsert cmp a (arrSort cmp l)

/-! ## `SeatLayout.jsx` -/

/-- A seat record of the backend; the fields the frontend reads. -/
structure Seat where
  seatNumber : String
  seatType : String
  status : String
deriving DecidableEq, Repr

/-- An element of `allSeats`. -/
structure SeatView where
  number : String
  isAvailable : Bool
  isSelected : Bool
  type : String
  status : String
deriving DecidableEq, Repr

namespace SeatLayout

/-- The callback of `availableSeats.map` that builds `allSeats`. -/
def toView (selectedSeatNumber : String) (seat : Seat) : SeatView :=
  { number := seat.seatNumber
    isAvailable := seat.status = "AVAILABLE"
    isSelected := seat.seatNumber = selectedSeatNumber
    type := seat.seatType
    status := seat.status }

/-- The comparator handed to `allSeats.sort`. -/
def compareSeats (a b : SeatView) : JSNumber :=
  let numA := parseIntSliced (strSlice a.number 1)
  let numB := parseIntSliced (strSlice b.number 1)
  numA.sub numB

/-- The loop `for (let i = 0; i < allSeats.length; i += 4) rows.push(...)`,
entered with counter `i` and the rows pushed so far. -/
def rowsLoop {α : Type} (allSeats : List α) (i : Nat) (rows : List (List α)) :
    List (List α) :=
  if i < allSeats.length then
    rowsLoop allSeats (i + 4) (rows ++ [arrSlice allSeats i (i + 4)])
  else rows
termination_by allSeats.length - i

/-- The sorted `allSeats` of the component. -/
def allSeats (availableSeats : List Seat) (selectedSeatNumber : String) : List SeatView :=
  arrSort compareSeats (availableSeats.map (toView selectedSeatNumber))

/-- The `rows` of the component. The prop `totalSeats` is accepted and never
read. -/
def rows (availableSeats : List Seat) (selectedSeatNumber : String)
    (totalSeats : Nat) : List (List SeatView) :=
  rowsLoop (allSeats availableSeats selectedSeatNumber) 0 []

/-- The display state in the `className` of a seat cell. -/
def displayState (seat : SeatView) : String :=
  if seat.isSelected then "selected"
  else if seat.status = "BOOKED" then "occupied"
  else if seat.type ≠ "REGULAR" then "priority"
  else "available"

/-- Whether the `className` of a seat cell carries `selectable`. -/
def selectable (selectedSeatType : String) (seat : SeatView) : Bool :=
  seat.isAvailable && decide (selectedSeatType = seat.type)

/-- The `onClick` of a seat cell:
`seat.isAvailable && selectedSeatType === seat.type && onSeatSelect(seat.number)`,
as a transformer of the state `σ` that `onSeatSelect` acts on. -/
def onClick {σ : Type} (selectedSeatType : String)
    (onSeatSelect : String → σ → σ) (seat : SeatView) : σ → σ :=
  if seat.isAvailable && decide (selectedSeatType = seat.type) then onSeatSelect seat.number
  else id

end SeatLayout

/-! ## Specification notions for the seat map

These are not code of the component: they say what the seat map is expected to
satisfy. -/

/-- Specification notion: the integer value of a seat number without its
leading character, read in decimal. -/
def suffixValue (number : String) : Nat := digitsValue 10 (number.data.drop 1)

/-- Specification notion: a seat number of the numbering scheme, one leading
character (the letter of the seat type, which the seat map drops unread)
followed by at least one decimal digit. -/
def seatNumberShape (number : String) : Bool :=
  match number.data with
  | _ :: d :: ds => (d :: ds).all isDecimalDigit
  | _ => false

/-- Specification notion: the leading character of the seat number is a single
UTF-16 code unit, as every letter of the Basic Multilingual Plane is. -/
def leadsWithOneUnit (number : String) : Bool :=
  match number.data with
  | c :: _ => decide (c.toNat < 0x10000)
  | [] => false

/-- Specification notion: the seats read row by row off the seat map are the
input seats reordered, in non-decreasing order of the integer after the leading
character. -/
def SortedBySuffix (availableSeats : List Seat) (selectedSeatNumber : String)
    (totalSeats : Nat) : Prop :=
  let out := (SeatLayout.rows availableSeats selectedSeatNumber totalSeats).flatten
  out.Perm (availableSeats.map (SeatLayout.toView selectedSeatNumber)) ∧
    out.Pairwise (fun a b => suffixValue a.number ≤ suffixValue b.number)

/-! ## `AddBooking.jsx`: data -/

/-- A value held in a form field: a string or a Number. -/
inductive JSValue where
  | str (s : String)
  | num (n : JSNumber)
deriving DecidableEq, Repr

/-- A bus of the bus list; `id` and `price` are Numbers. -/
structure Bus where
  id : Int
  name : String
  route : String
  price : Int
  totalSeats : Nat
deriving DecidableEq, Repr

/-- A user of the user list. -/
structure User where
  id : Int
  name : String
  email : String
deriving DecidableEq, Repr

/-- The `currentUser` of the authentication context. -/
structure AuthUser where
  id : Int
  role : String
deriving DecidableEq, Repr

/-- The body of a priority-info response. A missing, null or empty
`recommendedSeatType` is `none` or `some ""`. -/
structure UserPriorityInfo where
  elderlyPriorityEligible : Bool
  pregnantPriorityEligible : Bool
  recommendedSeatType : Option String
deriving DecidableEq, Repr

/-- The `formData` state. -/
structure FormData where
  userId : JSValue
  busId : String
  bookingDate : String
  seatNumber : String
  amount : JSValue
  status : String
deriving DecidableEq, Repr

/-- The `bookingData` that `handleSubmit` assembles:
`{...formData, userId: parseInt(..), busId: parseInt(..), bus: selectedBus}`. -/
structure BookingData where
  userId : JSNumber
  busId : JSNumber
  bookingDate : String
  seatNumber : String
  amount : JSValue
  status : String
  bus : Option Bus
deriving DecidableEq, Repr

/-- The `bookingData` of the copy under `src/frontend`, which has no `bus`. -/
structure DirectBookingData where
  userId : JSNumber
  busId : JSNumber
  bookingDate : String
  seatNumber : String
  amount : JSValue
  status : String
deriving DecidableEq, Repr

/-- The component state of `AddBooking`, one field per `useState`. -/
structure BookingForm where
  formData : FormData
  buses : List Bus
  users : List User
  selectedBus : Option Bus
  availableSeats : List Seat
  seatCounts : List (String × Int)
  selectedSeatType : String
  userPriority : Option UserPriorityInfo
  loading : Bool
  error : Option String
  priorityMessage : String
deriving DecidableEq, Repr

/-- What a handler asks of the outside: a request of `services/api.js` or a
navigation. -/
inductive Effect where
  | getSeats (busId : JSValue)
  | getAvailableSeats (busId : JSValue)
  | getSeatCounts (busId : JSValue)
  | getUserPriorityInfo (userId : JSNumber)
  | addBooking (payload : DirectBookingData)
  | navigate (path : String) (bookingData : Option BookingData)
deriving DecidableEq, Repr

/-- Truthiness of a string: every string but the empty one. -/
def strTruthy (s : String) : Bool := decide (s ≠ "")

/-- The assignment `{...prev, [name]: value}` for the names of the inputs that
the form renders; no input carries another name. -/
def FormData.set (f : FormData) (name value : String) : FormData :=
  if name = "userId" then { f with userId := JSValue.str value }
  else if name = "busId" then { f with busId := value }
  else if name = "bookingDate" then { f with bookingDate := value }
  else if name = "seatNumber" then { f with seatNumber := value }
  else if name = "amount" then { f with amount := JSValue.str value }
  else if name = "status" then { f with status := value }
  else f

/-- Number of decimal digits of `n`, counted with at most `fuel` divisions. -/
def decimalLengthAux : Nat → Nat → Nat
  | 0, _ => 0
  | fuel + 1, n => if n = 0 then 0 else decimalLengthAux fuel (n / 10) + 1

/-- Number of decimal digits of `n`; `n` divisions always suffice. -/
def decimalLength (n : Nat) : Nat := decimalLengthAux n n

/-- The decimal numbers with `k` significant digits next to `z`, a number of
`n` decimal digits: `z` cut to `k` digits, rounded down and rounded up. A pair
`(s, m)` stands for the value `s * 10 ^ (m - k)`, which has `m` digits. -/
def shortCandidates (z n k : Nat) : List (Nat × Nat) :=
  let lo := z / 10 ^ (n - k)
  if lo + 1 = 10 ^ k then [(lo, n), (10 ^ (k - 1), n + 1)] else [(lo, n), (lo + 1, n)]

/-- Distance between the value of a candidate and `z`. -/
def candidateDistance (z k : Nat) (c : Nat × Nat) : Nat :=
  let v := c.1 * 10 ^ (c.2 - k)
  if v ≤ z then z - v else v - z

/-- The candidate with `k` digits that the Number `z` is the Number value of,
if there is one: of two, the one nearer to `z`, and the even one when they are
equally near. -/
def shortChoice (z n k : Nat) : Option (Nat × Nat) :=
  match (shortCandidates z n k).filter
      (fun c => decide (roundNat (c.1 * 10 ^ (c.2 - k)) = z)) with
  | [] => none
  | [c] => some c
  | c :: d :: _ =>
    if candidateDistance z k c < candidateDistance z k d then some c
    else if candidateDistance z k d < candidateDistance z k c then some d
    else if c.1 % 2 = 0 then some c else some d

/-- The shortest decimal that `z` is the Number value of, searched from `k`
digits on with `fuel` tries: the digits `s`, their count `k` and the count of
integer digits of the value. -/
def shortestFrom (z n : Nat) : Nat → Nat → Option (Nat × Nat × Nat)
  | 0, _ => none
  | fuel + 1, k =>
    match shortChoice z n k with
    | some c => some (c.1, k, c.2)
    | none => shortestFrom z n fuel (k + 1)

/-- The string of a non-negative integral Number `z` (`Number::toString`): up
to 21 integer digits the shortest digits followed by zeros, beyond that the
exponent form. Below `2 ^ 53` every integer is a Number and the string is its
decimal numeral; the numeral also stands in for a `z` that is no Number, which
no JavaScript value holds. -/
def natToJSString (z : Nat) : String :=
  if z < 2 ^ 53 then toString z
  else
    match shortestFrom z (decimalLength z) (decimalLength z) 1 with
    | none => toString z
    | some (s, k, m) =>
      let digits := (toString s).data
      if m ≤ 21 then String.mk (digits ++ List.replicate (m - k) '0')
      else if k = 1 then String.mk digits ++ "e+" ++ toString (m - 1)
      else
        String.mk (digits.take 1) ++ "." ++ String.mk (digits.drop 1) ++ "e+" ++ toString (m - 1)

/-- The string that `parseInt` reads off a form value: the string itself, or
the string of the Number. -/
def JSValue.toJSString : JSValue → String
  | JSValue.str s => s
  | JSValue.num (JSNumber.fin v) =>
    if v < 0 then "-" ++ natToJSString v.natAbs else natToJSString v.natAbs
  | JSValue.num JSNumber.nan => "NaN"
  | JSValue.num JSNumber.posInf => "Infinity"
  | JSValue.num JSNumber.negInf => "-Infinity"

/-- The expression `userPriority && !userPriority.<flag>` as a condition. -/
def notEligible (flag : UserPriorityInfo → Bool) : Option UserPriorityInfo → Bool
  | some info => !flag info
  | none => false

namespace AddBooking

/-- The initial state of the component, for the `currentUser` of the context
and the `busId` of the URL (if any) at the time `now` of the first render. -/
def initialState (currentUser : Option AuthUser) (busIdFromUrl : Option String)
    (now : String) : BookingForm :=
  { formData :=
      { userId :=
          match currentUser with
          | some u => if u.id ≠ 0 then JSValue.num (JSNumber.fin u.id) else JSValue.str ""
          | none => JSValue.str ""
        busId :=
          match busIdFromUrl with
          | some b => b
          | none => ""
        bookingDate := now
        seatNumber := ""
        amount := JSValue.str ""
        status := "PENDING" }
    buses := []
    users := []
    selectedBus := none
    availableSeats := []
    seatCounts := [("REGULAR", 0), ("ELDER", 0), ("PREGNANT", 0)]
    selectedSeatType := "REGULAR"
    userPriority := none
    loading := false
    error := none
    priorityMessage := "" }

/-- The requests of `fetchSeatsForBus(busId)`. -/
def fetchSeatsForBus (busId : JSValue) : List Effect :=
  [Effect.getSeats busId, Effect.getSeatCounts busId]

/-- The continuation of `fetchData` when the bus and user lists arrive: the
lists are stored, the priority info of the current user is requested, and a
bus named in the URL is looked up and, when found, selected. -/
def dataLoaded (currentUser : Option AuthUser) (busIdFromUrl : Option String)
    (st : BookingForm) (busesData : List Bus) (usersData : List User) :
    BookingForm × List Effect :=
  let st1 := { st with buses := busesData, users := usersData }
  let priorityPart : List Effect :=
    match currentUser with
    | some u => if u.id ≠ 0 then [Effect.getUserPriorityInfo (JSNumber.fin u.id)] else []
    | none => []
  let busPart : BookingForm × List Effect :=
    match busIdFromUrl with
    | some b =>
      if strTruthy b then
        match busesData.find? (fun bus => decide (JSNumber.fin bus.id = parseInt b)) with
        | some bus =>
          ({ st1 with
              selectedBus := some bus
              formData := { st1.formData with amount := JSValue.num (JSNumber.fin bus.price) } },
            fetchSeatsForBus (JSValue.num (parseInt b)))
        | none => (st1, [])
      else (st1, [])
    | none => (st1, [])
  (busPart.1, priorityPart ++ busPart.2)

/-- The continuation of `fetchData` when a list request fails. -/
def dataFailed (st : BookingForm) : BookingForm :=
  { st with error := some "Failed to load buses and users" }

/-- The continuation of `fetchSeatsForBus` when both requests succeed. -/
def seatsLoaded (st : BookingForm) (seats : List Seat) (counts : List (String × Int)) :
    BookingForm :=
  { st with availableSeats := seats, seatCounts := counts }

/-- The continuation of `fetchSeatsForBus` when a request fails. -/
def seatsFailed (st : BookingForm) : BookingForm :=
  { st with error := some "Failed to load seat information" }

/-- The continuation of `fetchUserPriorityInfo` when the request succeeds. -/
def priorityLoaded (st : BookingForm) (priorityInfo : UserPriorityInfo) : BookingForm :=
  let st1 := { st with userPriority := some priorityInfo }
  match priorityInfo.recommendedSeatType with
  | some recommended =>
    if strTruthy recommended then
      let st2 := { st1 with selectedSeatType := recommended }
      if priorityInfo.pregnantPriorityEligible then
        { st2 with priorityMessage := "You are eligible for pregnant priority seating." }
      else if priorityInfo.elderlyPriorityEligible then
        { st2 with priorityMessage := "You are eligible for elderly priority seating." }
      else st2
    else st1
  | none => st1

/-- The continuation of `fetchUserPriorityInfo` when the request fails: the
`catch` only logs. -/
def priorityFailed (st : BookingForm) : BookingForm := st

/-- The handler `handleChange` for an input named `name` with value `value`. -/
def handleChange (currentUser : Option AuthUser) (st : BookingForm) (name value : String) :
    BookingForm × List Effect :=
  let st1 := { st with formData := st.formData.set name value }
  let busPart : BookingForm × List Effect :=
    if name = "busId" then
      let busId := parseInt value
      match st.buses.find? (fun bus => decide (JSNumber.fin bus.id = busId)) with
      | some selectedBus =>
        ({ st1 with
            selectedBus := some selectedBus
            formData :=
              { st1.formData with
                amount := JSValue.num (JSNumber.fin selectedBus.price), seatNumber := "" } },
          fetchSeatsForBus (JSValue.num busId))
      | none => (st1, [])
    else (st1, [])
  let userPart : List Effect :=
    if name = "userId" ∧ currentUser.map (fun u => u.role) = some "ADMIN" then
      let userId := parseInt value
      if userId.truthy then [Effect.getUserPriorityInfo userId] else []
    else []
  (busPart.1, busPart.2 ++ userPart)

/-- The handler `handleSeatTypeChange` for the chosen value. -/
def handleSeatTypeChange (st : BookingForm) (newSeatType : String) :
    BookingForm × List Effect :=
  ({ st with
      selectedSeatType := newSeatType
      formData := { st.formData with seatNumber := "" } },
    if strTruthy st.formData.busId then fetchSeatsForBus (JSValue.str st.formData.busId) else [])

/-- The handler `handleSubmit`. -/
def handleSubmit (st : BookingForm) : BookingForm × List Effect :=
  let st1 := { st with loading := true, error := none }
  if st.selectedSeatType = "PREGNANT" ∧
      notEligible (fun p => p.pregnantPriorityEligible) st.userPriority then
    ({ st1 with
        error := some
          "You are not eligible for pregnant priority seating. Please select a different seat type."
        loading := false }, [])
  else if st.selectedSeatType = "ELDER" ∧
      notEligible (fun p => p.elderlyPriorityEligible) st.userPriority then
    ({ st1 with
        error := some
          "You are not eligible for elderly priority seating. Please select a different seat type."
        loading := false }, [])
  else
    let bookingData : BookingData :=
      { userId := parseInt st.formData.userId.toJSString
        busId := parseInt st.formData.busId
        bookingDate := st.formData.bookingDate
        seatNumber := st.formData.seatNumber
        amount := st.formData.amount
        status := st.formData.status
        bus := st.selectedBus }
    (st1, [Effect.navigate "/payment" (some bookingData)])

/-- The `disabled` attribute of the REGULAR choice: the input has none. -/
def regularDisabled : Bool := false

/-- The `disabled` attribute of a priority choice,
`userPriority && !userPriority.<flag> && currentUser.role !== 'ADMIN'`;
`none` when reading `currentUser.role` throws because there is no current
user. -/
def priorityDisabled (flag : UserPriorityInfo → Bool) (userPriority : Option UserPriorityInfo)
    (currentUser : Option AuthUser) : Option Bool :=
  if notEligible flag userPriority then
    match currentUser with
    | some u => some (decide (u.role ≠ "ADMIN"))
    | none => none
  else some false

/-- The `disabled` attribute of the ELDER choice. -/
def elderDisabled (userPriority : Option UserPriorityInfo) (currentUser : Option AuthUser) :
    Option Bool :=
  priorityDisabled (fun p => p.elderlyPriorityEligible) userPriority currentUser

/-- The `disabled` attribute of the PREGNANT choice. -/
def pregnantDisabled (userPriority : Option UserPriorityInfo) (currentUser : Option AuthUser) :
    Option Bool :=
  priorityDisabled (fun p => p.pregnantPriorityEligible) userPriority currentUser

/-- The `onSeatSelect` callback handed to `SeatLayout`. -/
def onSeatSelect (seatNumber : String) (st : BookingForm) : BookingForm :=
  { st with formData := { st.formData with seatNumber := seatNumber } }

/-- A click on the cell that `SeatLayout` renders for `seat`. -/
def clickSeat (st : BookingForm) (seat : Seat) : BookingForm :=
  SeatLayout.onClick st.selectedSeatType onSeatSelect
    (SeatLayout.toView st.formData.seatNumber seat) st

/-- The `filteredSeats` of the component. -/
def filteredSeats (st : BookingForm) : List Seat :=
  st.availableSeats.filter
    (fun seat => decide (seat.seatType = st.selectedSeatType) && decide (seat.status = "AVAILABLE"))

/-- What can happen to the form: an input change, a seat-type choice, a click on
a seat cell, and the answers to the seat and priority requests. -/
inductive Event where
  | change (name value : String)
  | seatTypeChange (value : String)
  | seatClick (seat : Seat)
  | seatsResponse (seats : List Seat) (counts : List (String × Int))
  | priorityResponse (priorityInfo : UserPriorityInfo)
deriving DecidableEq, Repr

/-- One event applied to the form. The seat map is rendered only while
`formData.busId` is set, and only the seats of `availableSeats` have a cell. -/
def step (currentUser : Option AuthUser) (st : BookingForm) : Event → BookingForm
  | Event.change name value => (handleChange currentUser st name value).1
  | Event.seatTypeChange value => (handleSeatTypeChange st value).1
  | Event.seatClick seat =>
    if strTruthy st.formData.busId ∧ seat ∈ st.availableSeats then clickSeat st seat else st
  | Event.seatsResponse seats counts => seatsLoaded st seats counts
  | Event.priorityResponse priorityInfo => priorityLoaded st priorityInfo

/-- A run of events from a state. -/
def run (currentUser : Option AuthUser) (st : BookingForm) (events : List Event) : BookingForm :=
  events.foldl (step currentUser) st

/-- Specification notion, the invariant of seat selection: when a seat is
selected, every seat of the loaded list with that number has the selected seat
type. -/
def SelectionMatchesType (st : BookingForm) : Prop :=
  st.formData.seatNumber ≠ "" →
    ∀ seat ∈ st.availableSeats, seat.seatNumber = st.formData.seatNumber →
      seat.seatType = st.selectedSeatType

end AddBooking

/-! ## Sample data -/

/-- A bus with id 3 and price 500. -/
def sampleBus : Bus :=
  { id := 3, name := "Express", route := "North - South", price := 500, totalSeats := 40 }

/-- Three seats of the sample bus. -/
def sampleSeats : List Seat :=
  [{ seatNumber := "R05", seatType := "REGULAR", status := "AVAILABLE" },
   { seatNumber := "E01", seatType := "ELDER", status := "AVAILABLE" },
   { seatNumber := "R06", seatType := "REGULAR", status := "BOOKED" }]

/-- Two seats in decreasing order of their numbers; the first number is the
letter U+1D411 (mathematical bold capital R, outside the Basic Multilingual
Plane) followed by 7, the second is R6. -/
def boldLetterSeats : List Seat :=
  [{ seatNumber := String.mk [Char.ofNat 0x1D411, '7'], seatType := "REGULAR",
     status := "AVAILABLE" },
   { seatNumber := "R6", seatType := "REGULAR", status := "AVAILABLE" }]

/-- An administrator. -/
def sampleAdmin : AuthUser := { id := 1, role := "ADMIN" }

/-- A passenger without administrator rights. -/
def samplePassenger : AuthUser := { id := 7, role := "USER" }

/-- The form of the administrator once the bus and user lists have arrived. -/
def adminLoadedForm : BookingForm :=
  (AddBooking.dataLoaded (some sampleAdmin) none
    (AddBooking.initialState (some sampleAdmin) none "2025-01-01T10:00") [sampleBus]
    [{ id := 7, name := "Asha", email := "asha@example.org" },
     { id := 9, name := "Ravi", email := "ravi@example.org" }]).1

/-- The priority info of the administrator arrives, the administrator picks
bus 3, its seats arrive, user 7 is picked and found eligible for nothing, the
ELDER choice is taken, the seats arrive again and the available ELDER seat is
clicked. -/
def adminPicksElderSeat : List AddBooking.Event :=
  [AddBooking.Event.priorityResponse
     { elderlyPriorityEligible := false, pregnantPriorityEligible := false,
       recommendedSeatType := some "REGULAR" },
   AddBooking.Event.change "busId" "3",
   AddBooking.Event.seatsResponse sampleSeats [("REGULAR", 1), ("ELDER", 1)],
   AddBooking.Event.change "userId" "7",
   AddBooking.Event.priorityResponse
     { elderlyPriorityEligible := false, pregnantPriorityEligible := false,
       recommendedSeatType := some "REGULAR" },
   AddBooking.Event.seatTypeChange "ELDER",
   AddBooking.Event.seatsResponse sampleSeats [("REGULAR", 1), ("ELDER", 1)],
   AddBooking.Event.seatClick
     { seatNumber := "E01", seatType := "ELDER", status := "AVAILABLE" }]

/-- The priority info of the administrator arrives, the administrator picks
bus 3, its seats arrive, the REGULAR seat R05 is clicked, then user 9 is
picked, whose priority info recommends ELDER. -/
def adminReselectsUser : List AddBooking.Event :=
  [AddBooking.Event.priorityResponse
     { elderlyPriorityEligible := false, pregnantPriorityEligible := false,
       recommendedSeatType := some "REGULAR" },
   AddBooking.Event.change "busId" "3",
   AddBooking.Event.seatsResponse sampleSeats [("REGULAR", 1), ("ELDER", 1)],
   AddBooking.Event.seatClick
     { seatNumber := "R05", seatType := "REGULAR", status := "AVAILABLE" },
   AddBooking.Event.change "userId" "9",
   AddBooking.Event.priorityResponse
     { elderlyPriorityEligible := true, pregnantPriorityEligible := false,
       recommendedSeatType := some "ELDER" }]

/-! ## `AddBooking.jsx`, the copy under `src/frontend` -/

namespace RootCopy

/-- The requests of `fetchSeatsForBus(busId)` in this copy. -/
def fetchSeatsForBus (busId : JSValue) : List Effect :=
  [Effect.getAvailableSeats busId, Effect.getSeatCounts busId]

/-- The handler `handleSubmit` of this copy, up to the request it awaits. -/
def handleSubmit (st : BookingForm) : BookingForm × List Effect :=
  let st1 := { st with loading := true, error := none }
  if st.selectedSeatType = "PREGNANT" ∧
      notEligible (fun p => p.pregnantPriorityEligible) st.userPriority then
    ({ st1 with
        error := some
          "You are not eligible for pregnant priority seating. Please select a different seat type."
        loading := false }, [])
  else if st.selectedSeatType = "ELDER" ∧
      notEligible (fun p => p.elderlyPriorityEligible) st.userPriority then
    ({ st1 with
        error := some
          "You are not eligible for elderly priority seating. Please select a different seat type."
        loading := false }, [])
  else
    let bookingData : DirectBookingData :=
      { userId := parseInt st.formData.userId.toJSString
        busId := parseInt st.formData.busId
        bookingDate := st.formData.bookingDate
        seatNumber := st.formData.seatNumber
        amount := st.formData.amount
        status := st.formData.status }
    (st1, [Effect.addBooking bookingData])

end RootCopy

/-! ## Reachable states of the booking form -/

namespace AddBooking

/-- Whether the rendered form can raise the event. A change event comes from
the user select (shown to an administrator), the bus select or the booking
date input; the amount input is read-only and the user id and status inputs of
the form are hidden inputs without a change handler. -/
def Event.ofForm : Event → Bool
  | Event.change name _ =>
    decide (name = "userId") || decide (name = "busId") || decide (name = "bookingDate")
  | _ => true

/-- The states the form goes through: the initial state, the continuations of
the data, seat and priority requests, the events of the rendered form and the
submit handler. -/
inductive Reachable (currentUser : Option AuthUser) (busIdFromUrl : Option String)
    (now : String) : BookingForm → Prop where
  | init : Reachable currentUser busIdFromUrl now (initialState currentUser busIdFromUrl now)
  | loaded (st : BookingForm) (busesData : List Bus) (usersData : List User) :
      Reachable currentUser busIdFromUrl now st →
      Reachable currentUser busIdFromUrl now
        (dataLoaded currentUser busIdFromUrl st busesData usersData).1
  | loadFailed (st : BookingForm) :
      Reachable currentUser busIdFromUrl now st →
      Reachable currentUser busIdFromUrl now (dataFailed st)
  | seatsFailure (st : BookingForm) :
      Reachable currentUser busIdFromUrl now st →
      Reachable currentUser busIdFromUrl now (seatsFailed st)
  | priorityFailure (st : BookingForm) :
      Reachable currentUser busIdFromUrl now st →
      Reachable currentUser busIdFromUrl now (priorityFailed st)
  | event (st : BookingForm) (e : Event) :
      Reachable currentUser busIdFromUrl now st → e.ofForm = true →
      Reachable currentUser busIdFromUrl now (step currentUser st e)
  | submitted (st : BookingForm) :
      Reachable currentUser busIdFromUrl now st →
      Reachable currentUser busIdFromUrl now (handleSubmit st).1

/-- Specification notion: the second state shows the same priority info,
selected seat type and priority message as the first. -/
def SameEligibilityView (st next : BookingForm) : Prop :=
  next.userPriority = st.userPriority ∧ next.selectedSeatType = st.selectedSeatType ∧
    next.priorityMessage = st.priorityMessage

end AddBooking

/-! ## `PaymentPage.jsx` -/

/-- The component state of `PaymentPage`, one field per `useState`. -/
structure PaymentState where
  loading : Bool
  error : Option String
  showSuccess : Bool
deriving DecidableEq, Repr

/-- What the payment page asks of the outside: the create-booking request, a
navigation, or a navigation scheduled with `setTimeout`. -/
inductive PaymentEffect where
  | addBooking (bookingPayload : BookingData)
  | navigate (path : String)
  | navigateAfter (delayMs : Nat) (path : String)
deriving DecidableEq, Repr

namespace PaymentPage

/-- The initial state of the component. -/
def initialState : PaymentState :=
  { loading := false, error := none, showSuccess := false }

/-- The guard at the top of the component: without `bookingData` in the
location state it navigates to the bus list and renders nothing. -/
def missingDraft (bookingData : Option BookingData) : List PaymentEffect :=
  match bookingData with
  | some _ => []
  | none => [PaymentEffect.navigate "/buses"]

/-- The `bookingPayload` of `handleConfirmPayment`:
`{...bookingData, status: 'CONFIRMED'}`. -/
def bookingPayload (bookingData : BookingData) : BookingData :=
  { bookingData with status := "CONFIRMED" }

/-- The handler `handleConfirmPayment`, up to the request it awaits. -/
def handleConfirmPayment (bookingData : BookingData) (st : PaymentState) :
    PaymentState × List PaymentEffect :=
  ({ st with loading := true, error := none },
    [PaymentEffect.addBooking (bookingPayload bookingData)])

/-- The rest of `handleConfirmPayment` when the request succeeds: the `try`
block after the `await`, then `finally`. -/
def confirmSucceeded (st : PaymentState) : PaymentState × List PaymentEffect :=
  ({ st with showSuccess := true, loading := false },
    [PaymentEffect.navigateAfter 2000 "/bookings"])

/-- The rest of `handleConfirmPayment` when the request fails: `catch`, then
`finally`. -/
def confirmFailed (st : PaymentState) : PaymentState × List PaymentEffect :=
  ({ st with error := some "Failed to confirm payment. Please try again.", loading := false },
    [])

/-- The `disabled` attribute of the confirm button. -/
def confirmDisabled (st : PaymentState) : Bool := st.loading

/-- One confirmation from the click to the answer of its request: the handler
runs and, when the request is answered, the matching continuation; `ok` tells
whether the request succeeded. The pair holds the state of the page and the
effects issued so far. -/
def attempt (bookingData : BookingData) (page : PaymentState × List PaymentEffect) (ok : Bool) :
    PaymentState × List PaymentEffect :=
  let started := handleConfirmPayment bookingData page.1
  let finished := if ok then confirmSucceeded started.1 else confirmFailed started.1
  (finished.1, page.2 ++ started.2 ++ finished.2)

/-- The page after a sequence of confirmations from its initial state, each
answered before the next click (the button is disabled while one is pending). -/
def attempts (bookingData : BookingData) (outcomes : List Bool) :
    PaymentState × List PaymentEffect :=
  outcomes.foldl (attempt bookingData) (initialState, [])

end PaymentPage

/-! ## `BookingList.jsx` -/

/-- A booking of the booking list; the fields the list reads. -/
structure Booking where
  id : Int
  seatNumber : String
  bookingDate : String
  amount : Int
  status : String
  bus : Option Bus
  user : Option User
deriving DecidableEq, Repr

/-- The component state of `BookingList`, one field per `useState`. -/
structure BookingListState where
  bookings : List Booking
  loading : Bool
  error : Option String
  statusFilter : String
deriving DecidableEq, Repr

/-- What the booking list asks of the outside. -/
inductive ListEffect where
  | getBookings
  | getUserBookings (userId : Int)
  | cancelBooking (id : Int)
  | navigate (path : String)
deriving DecidableEq, Repr

namespace BookingList

/-- The initial state of the component. -/
def initialState : BookingListState :=
  { bookings := [], loading := true, error := none, statusFilter := "" }

/-- The handler `handleCancelBooking(id)` up to the request it awaits;
`confirmed` is the answer of `window.confirm`. -/
def handleCancelBooking (confirmed : Bool) (id : Int) : List ListEffect :=
  if confirmed then [ListEffect.cancelBooking id] else []

/-- The rest of `handleCancelBooking(id)` when the request succeeds. `bookings`
is the list the handler closed over when it was called. -/
def cancelSucceeded (bookings : List Booking) (id : Int) (st : BookingListState) :
    BookingListState × List ListEffect :=
  ({ st with
      bookings :=
        bookings.map (fun booking =>
          if booking.id = id then { booking with status := "CANCELLED" } else booking) },
    [])

/-- The rest of `handleCancelBooking(id)` when the request fails. -/
def cancelFailed (st : BookingListState) : BookingListState × List ListEffect :=
  ({ st with error := some "Failed to cancel booking. Please try again." }, [])

/-- The `filteredBookings` of the component. -/
def filteredBookings (st : BookingListState) : List Booking :=
  if strTruthy st.statusFilter then
    st.bookings.filter (fun booking => decide (booking.status = st.statusFilter))
  else st.bookings

end BookingList

/-! ## Sample data of the booking flow -/

/-- The events of the passenger of the sample flow: the own priority info
arrives (eligible for nothing), bus 3 is picked, its seats arrive and the
REGULAR seat R05 is clicked. -/
def passengerPicksSeat : List AddBooking.Event :=
  [AddBooking.Event.priorityResponse
     { elderlyPriorityEligible := false, pregnantPriorityEligible := false,
       recommendedSeatType := some "REGULAR" },
   AddBooking.Event.change "busId" "3",
   AddBooking.Event.seatsResponse sampleSeats [("REGULAR", 1), ("ELDER", 1)],
   AddBooking.Event.seatClick
     { seatNumber := "R05", seatType := "REGULAR", status := "AVAILABLE" }]

/-- The form of the sample passenger (user 7) once the lists have arrived. -/
def passengerLoadedForm : BookingForm :=
  (AddBooking.dataLoaded (some samplePassenger) none
    (AddBooking.initialState (some samplePassenger) none "2025-01-01T10:00") [sampleBus] []).1

/-- The form of the sample passenger with seat R05 of bus 3 selected. -/
def passengerSeatChosen : BookingForm :=
  AddBooking.run (some samplePassenger) passengerLoadedForm passengerPicksSeat

/-- The draft that the booking flow scenario expects for the sample passenger:
user 7, bus 3, seat R05, amount 500, status PENDING, with the booking date and
the bus of the sample. -/
def sampleDraft : BookingData :=
  { userId := JSNumber.fin 7, busId := JSNumber.fin 3, bookingDate := "2025-01-01T10:00",
    seatNumber := "R05", amount := JSValue.num (JSNumber.fin 500), status := "PENDING",
    bus := some sampleBus }

/-- Four bookings with the statuses PENDING, CONFIRMED, CONFIRMED, CANCELLED;
the first has id 42. -/
def sampleBookings : List Booking :=
  [{ id := 42, seatNumber := "R05", bookingDate := "2025-01-01T10:00", amount := 500,
     status := "PENDING", bus := some sampleBus, user := none },
   { id := 43, seatNumber := "R06", bookingDate := "2025-01-02T10:00", amount := 500,
     status := "CONFIRMED", bus := some sampleBus, user := none },
   { id := 44, seatNumber := "E01", bookingDate := "2025-01-03T10:00", amount := 500,
     status := "CONFIRMED", bus := none, user := none },
   { id := 45, seatNumber := "R07", bookingDate := "2025-01-04T10:00", amount := 500,
     status := "CANCELLED", bus := some sampleBus, user := none }]

/-- The form of the sample passenger opened with `?busId=3` after the request
for the bus and user lists has failed: the bus id of the URL is in the form,
no bus is selected and no priority info is requested. -/
def urlFormListFailed : BookingForm :=
  AddBooking.dataFailed
    (AddBooking.initialState (some samplePassenger) (some "3") "2025-01-01T10:00")

/-- The passenger takes the ELDER choice, which requests the seats of the bus
of the URL, the seats arrive and the available ELDER seat E01 is clicked. -/
def urlPassengerPicksSeat : List AddBooking.Event :=
  [AddBooking.Event.seatTypeChange "ELDER",
   AddBooking.Event.seatsResponse sampleSeats [("REGULAR", 1), ("ELDER", 1)],
   AddBooking.Event.seatClick
     { seatNumber := "E01", seatType := "ELDER", status := "AVAILABLE" }]

/-- The form opened with `?busId=3` whose list request failed, with seat E01
selected. -/
def urlFormSeatChosen : BookingForm :=
  AddBooking.run (some samplePassenger) urlFormListFailed urlPassengerPicksSeat

/-- After `adminReselectsUser` the administrator picks user 7, whose priority
info carries a recommended seat type and neither eligibility. -/
def adminPicksIneligibleUser : List AddBooking.Event :=
  adminReselectsUser ++
    [AddBooking.Event.change "userId" "7",
     AddBooking.Event.priorityResponse
       { elderlyPriorityEligible := false, pregnantPriorityEligible := false,
         recommendedSeatType := some "REGULAR" }]

/-- Three bookings with the statuses PENDING, PENDING, CONFIRMED and the ids
42, 43, 44; the list shows a cancel button for the first two. -/
def pendingBookings : List Booking :=
  [{ id := 42, seatNumber := "R05", bookingDate := "2025-01-01T10:00", amount := 500,
     status := "PENDING", bus := some sampleBus, user := none },
   { id := 43, seatNumber := "R06", bookingDate := "2025-01-02T10:00", amount := 500,
     status := "PENDING", bus := some sampleBus, user := none },
   { id := 44, seatNumber := "E01", bookingDate := "2025-01-03T10:00", amount := 500,
     status := "CONFIRMED", bus := none, user := none }]

/-! ## The rendered seat map -/

/-- What `SeatLayout` renders for one seat: the `key`, the display state and
the `selectable` mark of the `className`, the `title` and the text. -/
structure SeatCell where
  key : String
  displayState : String
  selectable : Bool
  title : String
  text : String
deriving DecidableEq, Repr

namespace SeatLayout

/-- The cell rendered by the callback of `row.map`. -/
def cell (selectedSeatType : String) (seat : SeatView) : SeatCell :=
  { key := seat.number
    displayState := displayState seat
    selectable := selectable selectedSeatType seat
    title := "Seat " ++ seat.number ++ " - " ++ seat.type ++ " - " ++ seat.status
    text := seat.number }

/-- The seat map that the component renders: the cells of every row. -/
def seatMap (availableSeats : List Seat) (selectedSeatNumber selectedSeatType : String)
    (totalSeats : Nat) : List (List SeatCell) :=
  (rows availableSeats selectedSeatNumber totalSeats).map
    (fun row => row.map (cell selectedSeatType))

end SeatLayout

/-! ## The seat counts shown by `AddBooking.jsx` -/

namespace AddBooking

/-- The property `key` of the seat-count object; the object is held as the
list of its properties, each key once. -/
def countOf (seatCounts : List (String × Int)) (key : String) : Option Int :=
  seatCounts.lookup key

/-- The expression `seatCounts.<key> || 0`. -/
def shownCount (seatCounts : List (String × Int)) (key : String) : Int :=
  match countOf seatCounts key with
  | some n => if n ≠ 0 then n else 0
  | none => 0

/-- Whether the seat distribution is rendered: a bus is selected and
`Object.keys(seatCounts).length > 0`. -/
def countsShown (st : BookingForm) : Bool :=
  st.selectedBus.isSome && decide (0 < st.seatCounts.length)

end AddBooking

/-! ## `TransferSeat.jsx` -/

/-- A booking as `TransferSeat` reads it. A missing or null `busId` is `none`. -/
structure TransferBooking where
  id : Int
  busId : Option Int
  seatNumber : String
  bookingDate : String
  amount : Int
  status : String
  bus : Option Bus
deriving DecidableEq, Repr

/-- The component state of `TransferSeat`, one field per `useState`. -/
structure TransferState where
  bookings : List TransferBooking
  loading : Bool
  error : Option String
  selectedBooking : Option TransferBooking
  recipientEmail : String
deriving DecidableEq, Repr

namespace TransferSeat

/-- The initial state of the component. -/
def initialState : TransferState :=
  { bookings := [], loading := true, error := none, selectedBooking := none,
    recipientEmail := "" }

/-- The callback of `response.data.map`: a booking with a truthy `busId` gets
the bus that `fetchBusData` returns for it, when it returns one. `busData`
gives the answer of `fetchBusData` for every bus id, `none` for null. -/
def attachBus (busData : Int → Option Bus) (booking : TransferBooking) : TransferBooking :=
  match booking.busId with
  | some busId =>
    if busId ≠ 0 then
      match busData busId with
      | some bus => { booking with bus := some bus }
      | none => booking
    else booking
  | none => booking

/-- The `confirmedBookings` of `fetchBookings`. -/
def confirmedBookings (busData : Int → Option Bus) (data : List TransferBooking) :
    List TransferBooking :=
  (data.map (attachBus busData)).filter (fun booking => decide (booking.status = "CONFIRMED"))

/-- The continuation of `fetchBookings` when the booking request succeeds. -/
def bookingsLoaded (busData : Int → Option Bus) (st : TransferState)
    (data : List TransferBooking) : TransferState :=
  { st with bookings := confirmedBookings busData data, error := none, loading := false }

/-- The continuation of `fetchBookings` when the booking request fails. -/
def bookingsFailed (st : TransferState) : TransferState :=
  { st with error := some "Failed to fetch bookings. Please try again later.", loading := false }

end TransferSeat

/-! ## Dates -/

/-- Days from 1970-01-01 to a date of the proleptic Gregorian calendar; a day
past the end of the month counts on into the next month. -/
def daysFromCivil (year month day : Int) : Int :=
  let y := if month ≤ 2 then year - 1 else year
  let era := y / 400
  let yoe := y - era * 400
  let mp := if 2 < month then month - 3 else month + 9
  let doy := (153 * mp + 2) / 5 + day - 1
  let doe := yoe * 365 + yoe / 4 - yoe / 100 + doy
  era * 146097 + doe - 719468

/-- Year, month and day of the date that lies `days` days after 1970-01-01. -/
def civilFromDays (days : Int) : Int × Int × Int :=
  let z := days + 719468
  let era := z / 146097
  let doe := z - era * 146097
  let yoe := (doe - doe / 1460 + doe / 36524 - doe / 146096) / 365
  let doy := doe - (365 * yoe + yoe / 4 - yoe / 100)
  let mp := (5 * doy + 2) / 153
  let d := doy - (153 * mp + 2) / 5 + 1
  let m := if mp < 10 then mp + 3 else mp - 9
  let y := yoe + era * 400
  (if m ≤ 2 then y + 1 else y, m, d)

/-- The time value of `new Date(dateString)` for a date-only string
`yyyy-mm-dd`, in minutes since the epoch: such a string is read as midnight
UTC. `none` is the invalid date. Strings of another form are taken as invalid;
a date input produces none. A day up to 31 past the end of its month is counted
on into the next month, which is what some engines do and others reject. -/
def parseDateOnly (dateString : String) : Option Int :=
  match dateString.data with
  | [y1, y2, y3, y4, '-', m1, m2, '-', d1, d2] =>
    if [y1, y2, y3, y4, m1, m2, d1, d2].all isDecimalDigit then
      let year : Int := digitsValue 10 [y1, y2, y3, y4]
      let month : Int := digitsValue 10 [m1, m2]
      let day : Int := digitsValue 10 [d1, d2]
      if 1 ≤ month ∧ month ≤ 12 ∧ 1 ≤ day ∧ day ≤ 31 then
        some (daysFromCivil year month day * 1440)
      else none
    else none
  | _ => none

/-- The call `String(n).padStart(2, '0')`. -/
def padStart2 (n : Int) : String :=
  let s := toString n
  if s.length < 2 then "0" ++ s else s

/-! ## `AddBus.jsx` -/

/-- The `formData` state of `AddBus`. -/
structure BusForm where
  name : String
  route : String
  departureDate : String
  departureTime : String
  arrivalTime : String
  availableSeats : String
  totalSeats : String
  price : String
deriving DecidableEq, Repr

/-- The `busData` that `handleSubmit` sends. The price is the Number that
`parseFloat` reads off the string kept here. -/
structure BusData where
  name : String
  route : String
  departureDate : String
  departureTime : String
  arrivalTime : String
  availableSeats : JSNumber
  totalSeats : JSNumber
  priceSource : String
deriving DecidableEq, Repr

/-- The component state of `AddBus`. -/
structure AddBusState where
  formData : BusForm
  loading : Bool
  error : Option String
deriving DecidableEq, Repr

/-- What `AddBus` asks of the outside. -/
inductive AddBusEffect where
  | addBus (busData : BusData)
  | navigate (path : String)
deriving DecidableEq, Repr

namespace AddBus

/-- The initial state of the component. -/
def initialState : AddBusState :=
  { formData :=
      { name := "", route := "", departureDate := "", departureTime := "", arrivalTime := "",
        availableSeats := "", totalSeats := "", price := "" }
    loading := false
    error := none }

/-- The function `formatDate`. `localOffset` is the offset of local time from
UTC, in minutes, at the instant the date string denotes: `getDate`, `getMonth`
and `getFullYear` read the date in local time. -/
def formatDate (localOffset : Int) (dateString : String) : String :=
  if dateString = "" then ""
  else
    match parseDateOnly dateString with
    | none => "NaN-NaN-NaN"
    | some utcMinutes =>
      let date := civilFromDays ((utcMinutes + localOffset) / 1440)
      let day := padStart2 date.2.2
      let month := padStart2 date.2.1
      let year := date.1
      day ++ "-" ++ month ++ "-" ++ toString year

/-- The assignment `{...prev, [name]: value}` for the names of the inputs of
the form. -/
def BusForm.set (f : BusForm) (name value : String) : BusForm :=
  if name = "name" then { f with name := value }
  else if name = "route" then { f with route := value }
  else if name = "departureDate" then { f with departureDate := value }
  else if name = "departureTime" then { f with departureTime := value }
  else if name = "arrivalTime" then { f with arrivalTime := value }
  else if name = "availableSeats" then { f with availableSeats := value }
  else if name = "totalSeats" then { f with totalSeats := value }
  else if name = "price" then { f with price := value }
  else f

/-- The handler `handleChange` for an input named `name` with value `value`. -/
def handleChange (localOffset : Int) (st : AddBusState) (name value : String) : AddBusState :=
  if name = "departureDate" then
    { st with formData := BusForm.set st.formData name (formatDate localOffset value) }
  else
    { st with formData := BusForm.set st.formData name value }

/-- The handler `handleSubmit`, up to the request it awaits. -/
def handleSubmit (st : AddBusState) : AddBusState × List AddBusEffect :=
  ({ st with loading := true, error := none },
    [AddBusEffect.addBus
      { name := st.formData.name
        route := st.formData.route
        departureDate := st.formData.departureDate
        departureTime := st.formData.departureTime
        arrivalTime := st.formData.arrivalTime
        availableSeats := parseInt st.formData.availableSeats
        totalSeats := parseInt st.formData.totalSeats
        priceSource := st.formData.price }])

/-- The rest of `handleSubmit` when the request succeeds. -/
def submitSucceeded (st : AddBusState) : AddBusState × List AddBusEffect :=
  (st, [AddBusEffect.navigate "/buses"])

/-- The rest of `handleSubmit` when the request fails. -/
def submitFailed (st : AddBusState) : AddBusState × List AddBusEffect :=
  ({ st with error := some "Failed to add bus", loading := false }, [])

end AddBus

/-! ## Properties -/

/-- A number below `2 ^ k` has at most `k` binary digits. -/
theorem bitLengthAux_le (k : Nat) : ∀ fuel n, n < 2 ^ k → bitLengthAux fuel n ≤ k := by
  induction k with
  | zero =>
    intro fuel n h
    have : n = 0 := by omega
    cases fuel <;> simp [bitLengthAux, this]
  | succ k ih =>
    intro fuel n h
    cases fuel with
    | zero => simp [bitLengthAux]
    | succ fuel =>
      unfold bitLengthAux
      split
      · omega
      · have := ih fuel (n / 2) (by rw [Nat.pow_succ] at h; omega)
        omega

/-- With fuel at least `n` the count is the number of binary digits of `n`:
`n` lies below `2` to that power and, when positive, not below half of it. -/
theorem bitLengthAux_spec : ∀ fuel n, n ≤ fuel →
    n < 2 ^ bitLengthAux fuel n ∧ (n ≠ 0 → 2 ^ (bitLengthAux fuel n - 1) ≤ n) := by
  intro fuel
  induction fuel with
  | zero =>
    intro n h
    have : n = 0 := by omega
    simp [bitLengthAux, this]
  | succ fuel ih =>
    intro n h
    unfold bitLengthAux
    split
    · rename_i h0
      simp [h0]
    · rename_i h0
      have ih2 := ih (n / 2) (by omega)
      constructor
      · rw [Nat.pow_succ]
        omega
      · intro _
        simp only [Nat.add_sub_cancel]
        by_cases h2 : n / 2 = 0
        · have : bitLengthAux fuel (n / 2) = 0 := by
            cases fuel <;> simp [bitLengthAux, h2]
          rw [this]
          simp
          omega
        · have h3 := ih2.2 h2
          have h4 : bitLengthAux fuel (n / 2) ≠ 0 := by
            intro h5
            have := ih2.1
            rw [h5] at this
            omega
          obtain ⟨k, hk⟩ := Nat.exists_eq_succ_of_ne_zero h4
          rw [hk] at h3 ⊢
          simp only [Nat.succ_sub_one] at h3
          rw [Nat.pow_succ]
          omega

/-- The number of binary digits of `n`, characterised. -/
theorem bitLength_spec (n : Nat) :
    n < 2 ^ bitLength n ∧ (n ≠ 0 → 2 ^ (bitLength n - 1) ≤ n) :=
  bitLengthAux_spec n n (Nat.le_refl n)

/-- Rounding leaves every natural number below `2 ^ 53` as it is. -/
theorem roundNat_of_lt {n : Nat} (h : n < 2 ^ 53) : roundNat n = n := by
  unfold roundNat
  rw [if_pos h]

/-- An integer of magnitude below `2 ^ 53` is its own Number value. -/
theorem toNumber_of_lt {z : Int} (h : z.natAbs < 2 ^ 53) : toNumber z = JSNumber.fin z := by
  have h1 : bitLength z.natAbs ≤ 53 := bitLengthAux_le 53 _ _ h
  have h2 : ¬ (1024 < bitLength z.natAbs) := by omega
  unfold toNumber
  simp only [roundNat_of_lt h]
  rw [if_neg h2]
  congr 1
  split <;> omega

/-- A decimal digit is not white space. -/
theorem isStrWhiteSpace_digit {c : Char} (h : isDecimalDigit c = true) :
    isStrWhiteSpace c = false := by
  simp only [isDecimalDigit, Bool.and_eq_true, decide_eq_true_eq] at h
  simp only [isStrWhiteSpace]
  simp
  omega

/-- A decimal digit is a digit of radix 10. -/
theorem isRadixDigit_digit {c : Char} (h : isDecimalDigit c = true) :
    isRadixDigit 10 c = true := by
  simp only [isDecimalDigit, Bool.and_eq_true, decide_eq_true_eq] at h
  simp only [isRadixDigit, digitValue, h, and_self, if_true]
  simp
  omega

/-- On a non-empty run of decimal digits `parseInt` is the Number value of the
integer the digits write. -/
theorem parseIntChars_digits (d : Char) (ds : List Char)
    (h : ∀ c ∈ d :: ds, isDecimalDigit c = true) :
    parseIntChars (d :: ds) = toNumber (digitsValue 10 (d :: ds)) := by
  have hd := h d (List.mem_cons_self _ _)
  have hd2 := hd
  simp only [isDecimalDigit, Bool.and_eq_true, decide_eq_true_eq] at hd2
  have hminus : d ≠ '-' := by
    intro e; rw [e] at hd2; revert hd2; decide
  have hplus : d ≠ '+' := by
    intro e; rw [e] at hd2; revert hd2; decide
  have hx : ∀ t, ds ≠ 'x' :: t := by
    intro t e
    have := h 'x' (by rw [e]; simp)
    revert this; decide
  have hX : ∀ t, ds ≠ 'X' :: t := by
    intro t e
    have := h 'X' (by rw [e]; simp)
    revert this; decide
  have hhex : ¬ (List.take 2 (d :: ds) = ['0', 'x'] ∨ List.take 2 (d :: ds) = ['0', 'X']) := by
    cases ds with
    | nil => simp
    | cons e t =>
      have he := h e (by simp)
      simp only [List.take_succ_cons, List.take_zero, List.cons.injEq, and_true, not_or, not_and]
      constructor
      · intro _ e2; rw [e2] at he; revert he; decide
      · intro _ e2; rw [e2] at he; revert he; decide
  have htw : List.takeWhile (isRadixDigit 10) (d :: ds) = d :: ds := by
    rw [List.takeWhile_eq_self_iff]
    intro c hc
    exact isRadixDigit_digit (h c hc)
  unfold parseIntChars
  simp only [List.dropWhile_cons, isStrWhiteSpace_digit hd, List.head?_cons, Option.some.injEq,
    hminus, hplus, or_self, if_false, hhex, htw, Bool.false_eq_true]
  simp

/-- Insertion adds the element and keeps the others. -/
theorem sortInsert_perm {α : Type} (cmp : α → α → JSNumber) (a : α) (l : List α) :
    (sortInsert cmp a l).Perm (a :: l) := by
  induction l with
  | nil => exact List.Perm.refl _
  | cons b l ih =>
    unfold sortInsert
    split
    · exact ((List.Perm.cons b ih).trans (List.Perm.swap a b l))
    · exact List.Perm.refl _

/-- The sort permutes its input, whatever the comparator. -/
theorem arrSort_perm {α : Type} (cmp : α → α → JSNumber) (l : List α) :
    (arrSort cmp l).Perm l := by
  induction l with
  | nil => exact List.Perm.refl _
  | cons a l ih => exact (sortInsert_perm cmp a _).trans (List.Perm.cons a ih)

/-- Insertion keeps a list ordered by `key` when the comparator is positive
exactly on pairs that `key` puts in decreasing order. -/
theorem sortInsert_pairwise {α : Type} (cmp : α → α → JSNumber) (key : α → Nat) (a : α)
    (l : List α) (hcmp : ∀ b ∈ l, ((cmp a b).isPositive = true ↔ key b < key a))
    (hl : l.Pairwise (fun x y => key x ≤ key y)) :
    (sortInsert cmp a l).Pairwise (fun x y => key x ≤ key y) := by
  induction l with
  | nil => simp [sortInsert]
  | cons b l ih =>
    have hb := hcmp b (List.mem_cons_self _ _)
    rw [List.pairwise_cons] at hl
    unfold sortInsert
    split
    · rename_i hpos
      have hlt : key b < key a := hb.mp hpos
      rw [List.pairwise_cons]
      refine ⟨?_, ih (fun c hc => hcmp c (List.mem_cons_of_mem _ hc)) hl.2⟩
      intro c hc
      rcases (List.mem_cons.mp ((sortInsert_perm cmp a l).subset hc)) with rfl | hc
      · exact Nat.le_of_lt hlt
      · exact hl.1 c hc
    · rename_i hpos
      have hle : key a ≤ key b := Nat.le_of_not_lt (fun h => hpos (hb.mpr h))
      rw [List.pairwise_cons]
      refine ⟨?_, List.pairwise_cons.mpr hl⟩
      intro c hc
      rcases List.mem_cons.mp hc with rfl | hc
      · exact hle
      · exact Nat.le_trans hle (hl.1 c hc)

/-- The sort orders by `key` when the comparator is positive exactly on pairs
that `key` puts in decreasing order. -/
theorem arrSort_pairwise {α : Type} (cmp : α → α → JSNumber) (key : α → Nat) (l : List α)
    (hcmp : ∀ a ∈ l, ∀ b ∈ l, ((cmp a b).isPositive = true ↔ key b < key a)) :
    (arrSort cmp l).Pairwise (fun x y => key x ≤ key y) := by
  induction l with
  | nil => simp [arrSort]
  | cons a l ih =>
    unfold arrSort
    apply sortInsert_pairwise
    · intro b hb
      exact hcmp a (List.mem_cons_self _ _) b (List.mem_cons_of_mem _ ((arrSort_perm cmp l).subset hb))
    · exact ih (fun x hx y hy => hcmp x (List.mem_cons_of_mem _ hx) y (List.mem_cons_of_mem _ hy))

/-- On a seat number of the numbering scheme whose leading character is one
UTF-16 code unit, `parseInt(number.slice(1))` is the Number value of the
integer after the leading character. -/
theorem parseInt_suffix {number : String} (h : seatNumberShape number = true)
    (hu : leadsWithOneUnit number = true) :
    parseIntSliced (strSlice number 1) = toNumber (suffixValue number) := by
  unfold seatNumberShape at h
  unfold leadsWithOneUnit at hu
  unfold strSlice suffixValue
  split at h
  · rename_i c d ds heq
    rw [heq] at hu ⊢
    simp only [decide_eq_true_eq] at hu
    simp only [List.drop_succ_cons, List.drop_zero, sliceUnits, hu, if_true, parseIntSliced]
    apply parseIntChars_digits
    intro x hx
    exact List.all_eq_true.mp h x hx
  · exact absurd h (by simp)

/-- Below `2 ^ 53` the comparator of the seat map is positive exactly when the
first seat has the larger integer. -/
theorem compareSeats_pos {a b : SeatView} (ha : seatNumberShape a.number = true)
    (hb : seatNumberShape b.number = true) (hau : leadsWithOneUnit a.number = true)
    (hbu : leadsWithOneUnit b.number = true) (ha2 : suffixValue a.number < 2 ^ 53)
    (hb2 : suffixValue b.number < 2 ^ 53) :
    ((SeatLayout.compareSeats a b).isPositive = true ↔ suffixValue b.number < suffixValue a.number) := by
  unfold SeatLayout.compareSeats
  simp only [parseInt_suffix ha hau, parseInt_suffix hb hbu]
  rw [toNumber_of_lt (by omega), toNumber_of_lt (by omega)]
  simp only [JSNumber.sub]
  rw [toNumber_of_lt (by omega)]
  simp [JSNumber.isPositive]

/-- A slice followed by what lies after it is what lies from its start on. -/
theorem arrSlice_append_drop {α : Type} (xs : List α) (i k : Nat) :
    arrSlice xs i (i + k) ++ xs.drop (i + k) = xs.drop i := by
  unfold arrSlice
  rw [List.drop_take, Nat.add_sub_cancel_left, ← List.drop_drop, List.take_append_drop]

/-- The rows of the loop, joined, are the rows it started with followed by the
seats from the counter on. -/
theorem rowsLoop_flatten {α : Type} (xs : List α) (i : Nat) (rows : List (List α)) :
    (SeatLayout.rowsLoop xs i rows).flatten = rows.flatten ++ xs.drop i := by
  induction i, rows using SeatLayout.rowsLoop.induct xs with
  | case1 i rows h ih =>
    rw [SeatLayout.rowsLoop, if_pos h, ih]
    simp only [List.flatten_append, List.flatten_cons, List.flatten_nil, List.append_nil,
      List.append_assoc, arrSlice_append_drop]
  | case2 i rows h =>
    rw [SeatLayout.rowsLoop, if_neg h, List.drop_eq_nil_of_le (by omega), List.append_nil]

/-- Length of an array slice. -/
theorem length_arrSlice {α : Type} (xs : List α) (i j : Nat) :
    (arrSlice xs i j).length = min j xs.length - i := by
  simp [arrSlice]

/-- Sizes of the rows the loop builds from counter `i`. -/
theorem rowsLoop_lengths {α : Type} (xs : List α) (i : Nat) (rows : List (List α)) :
    (SeatLayout.rowsLoop xs i rows).map List.length =
      rows.map List.length ++ List.replicate ((xs.length - i) / 4) 4 ++
        (if (xs.length - i) % 4 = 0 then [] else [(xs.length - i) % 4]) := by
  induction i, rows using SeatLayout.rowsLoop.induct xs with
  | case1 i rows h ih =>
    rw [SeatLayout.rowsLoop, if_pos h, ih]
    simp only [List.map_append, List.map_cons, List.map_nil, length_arrSlice, List.append_assoc]
    congr 1
    by_cases h4 : i + 4 ≤ xs.length
    · have e1 : min (i + 4) xs.length - i = 4 := by omega
      have e2 : (xs.length - i) / 4 = (xs.length - (i + 4)) / 4 + 1 := by omega
      have e3 : (xs.length - i) % 4 = (xs.length - (i + 4)) % 4 := by omega
      rw [e1, e2, e3, List.replicate_succ]
      simp
    · have e1 : min (i + 4) xs.length - i = xs.length - i := by omega
      have e2 : (xs.length - i) / 4 = 0 := by omega
      have e3 : (xs.length - i) % 4 = xs.length - i := by omega
      have e4 : xs.length - (i + 4) = 0 := by omega
      have e5 : xs.length - i ≠ 0 := by omega
      rw [e1, e2, e3, e4]
      simp [e5]
  | case2 i rows h =>
    rw [SeatLayout.rowsLoop, if_neg h]
    have e : xs.length - i = 0 := by omega
    simp [e]

/-- The sorted seat list is as long as the input. -/
theorem length_allSeats (availableSeats : List Seat) (sel : String) :
    (SeatLayout.allSeats availableSeats sel).length = availableSeats.length := by
  unfold SeatLayout.allSeats
  rw [(arrSort_perm _ _).length_eq, List.length_map]

/-- The rows, joined, are the sorted seat list. -/
theorem rows_flatten (availableSeats : List Seat) (sel : String) (totalSeats : Nat) :
    (SeatLayout.rows availableSeats sel totalSeats).flatten = SeatLayout.allSeats availableSeats sel := by
  unfold SeatLayout.rows
  rw [rowsLoop_flatten]
  simp

/-- Entry `i` of the list of `k` fours followed by `m` when `m` is not zero. -/
theorem rowSizes_getElem (k m i : Nat) :
    (List.replicate k 4 ++ (if m = 0 then [] else [m]))[i]? =
      if i < k then some 4 else if i = k ∧ m ≠ 0 then some m else none := by
  by_cases h : i < k
  · rw [List.getElem?_append_left (by simpa using h), if_pos h]
    simp [List.getElem?_replicate, h]
  · rw [List.getElem?_append_right (by simpa using h), if_neg h, List.length_replicate]
    by_cases hm : m = 0
    · simp [hm]
    · rw [if_neg hm]
      by_cases hi : i = k
      · simp [hi, hm]
      · have : i - k ≠ 0 := by omega
        rw [if_neg (by simp [hi])]
        cases hik : i - k with
        | zero => exact absurd hik this
        | succ j => simp

/-- C1: for a seat list of length `n` the seat map has `ceil(n / 4)` rows, and
the sizes of the rows, read top to bottom, are `n / 4` times 4 followed by
`n mod 4` when that is not zero: row `i` holds 4 seats for `i < n / 4`, row
`n / 4` holds `n mod 4` seats when that is not zero, and there is no other row.
So every row but the last holds 4 seats, the last holds `n mod 4` seats when
that is not zero and 4 otherwise, and there is no row when `n = 0`. -/
theorem C1_rows_shape (availableSeats : List Seat) (selectedSeatNumber : String)
    (totalSeats : Nat) :
    (SeatLayout.rows availableSeats selectedSeatNumber totalSeats).length
        = (availableSeats.length + 3) / 4 ∧
      (SeatLayout.rows availableSeats selectedSeatNumber totalSeats).map List.length
        = List.replicate (availableSeats.length / 4) 4 ++
            (if availableSeats.length % 4 = 0 then [] else [availableSeats.length % 4]) ∧
      ∀ i : Nat,
        ((SeatLayout.rows availableSeats selectedSeatNumber totalSeats)[i]?).map List.length =
          if i < availableSeats.length / 4 then some 4
          else if i = availableSeats.length / 4 ∧ availableSeats.length % 4 ≠ 0 then
            some (availableSeats.length % 4)
          else none := by
  have h := rowsLoop_lengths (SeatLayout.allSeats availableSeats selectedSeatNumber) 0 []
  rw [length_allSeats] at h
  simp only [List.map_nil, List.nil_append, Nat.sub_zero] at h
  have h2 := congrArg List.length h
  rw [List.length_map] at h2
  refine ⟨?_, h, ?_⟩
  · unfold SeatLayout.rows
    rw [h2]
    split <;> simp <;> omega
  · intro i
    unfold SeatLayout.rows
    rw [← List.getElem?_map, h]
    exact rowSizes_getElem _ _ i

/-- C2 (amended): when every seat number is one leading character that is a
single UTF-16 code unit (as every letter of the Basic Multilingual Plane is)
followed by decimal digits whose integer value is below `2 ^ 53`, the seats
read row by row off the seat map are a permutation of the input seats, in
non-decreasing order of that integer value. -/
theorem C2_sorted (availableSeats : List Seat) (selectedSeatNumber : String) (totalSeats : Nat)
    (hshape : ∀ s ∈ availableSeats, seatNumberShape s.seatNumber = true)
    (hunit : ∀ s ∈ availableSeats, leadsWithOneUnit s.seatNumber = true)
    (hbound : ∀ s ∈ availableSeats, suffixValue s.seatNumber < 2 ^ 53) :
    SortedBySuffix availableSeats selectedSeatNumber totalSeats := by
  unfold SortedBySuffix
  simp only [rows_flatten]
  unfold SeatLayout.allSeats
  refine ⟨arrSort_perm _ _, ?_⟩
  apply arrSort_pairwise
  intro a ha b hb
  obtain ⟨s, hs, rfl⟩ := List.mem_map.mp ha
  obtain ⟨t, ht, rfl⟩ := List.mem_map.mp hb
  exact compareSeats_pos (hshape s hs) (hshape t ht) (hunit s hs) (hunit t ht) (hbound s hs)
    (hbound t ht)

/-- C2 as stated fails, in two ways. The seat numbers R9007199254740993 and
R9007199254740992 are a letter followed by decimal digits, `parseInt` gives the
same Number for both suffixes, the comparator answers zero and the stable sort
keeps the input order, which is decreasing in the integer value. And the seat
number made of the letter U+1D411 and the digit 7 is a letter followed by a
decimal digit, `slice(1)` leaves the second code unit of the letter in front
of the digit, `parseInt` answers NaN, the comparator answers NaN and the sort
keeps that seat in front of R6. -/
theorem C2_counterexample :
    ((∀ s ∈ [Seat.mk "R9007199254740993" "REGULAR" "AVAILABLE",
            Seat.mk "R9007199254740992" "REGULAR" "AVAILABLE"],
        seatNumberShape s.seatNumber = true) ∧
      ¬ SortedBySuffix [Seat.mk "R9007199254740993" "REGULAR" "AVAILABLE",
            Seat.mk "R9007199254740992" "REGULAR" "AVAILABLE"] "" 40) ∧
    ((∀ s ∈ boldLetterSeats, seatNumberShape s.seatNumber = true) ∧
      (∀ s ∈ boldLetterSeats, suffixValue s.seatNumber < 2 ^ 53) ∧
      (∀ a ∈ boldLetterSeats, ∀ b ∈ boldLetterSeats, a ≠ b →
        SeatLayout.compareSeats (SeatLayout.toView "" a) (SeatLayout.toView "" b) =
          JSNumber.nan) ∧
      ¬ SortedBySuffix boldLetterSeats "" 40) := by
  refine ⟨⟨by decide, ?_⟩, by decide, by decide, by decide, ?_⟩
  · unfold SortedBySuffix
    simp only [rows_flatten]
    intro h
    have h2 := h.2
    have e : SeatLayout.allSeats [Seat.mk "R9007199254740993" "REGULAR" "AVAILABLE",
            Seat.mk "R9007199254740992" "REGULAR" "AVAILABLE"] "" =
        [SeatLayout.toView "" (Seat.mk "R9007199254740993" "REGULAR" "AVAILABLE"),
         SeatLayout.toView "" (Seat.mk "R9007199254740992" "REGULAR" "AVAILABLE")] := by
      decide
    rw [e] at h2
    simp only [List.pairwise_cons] at h2
    have h3 := h2.1 _ (List.mem_cons_self _ _)
    revert h3
    decide
  · unfold SortedBySuffix
    simp only [rows_flatten]
    intro h
    have h2 := h.2
    have e : SeatLayout.allSeats boldLetterSeats "" =
        boldLetterSeats.map (SeatLayout.toView "") := by
      decide
    rw [e] at h2
    simp only [boldLetterSeats, List.map_cons, List.map_nil, List.pairwise_cons] at h2
    have h3 := h2.1 _ (List.mem_cons_self _ _)
    revert h3
    decide

/-- Witness of C2 (amended) on three seats of the numbering scheme. -/
theorem C2_sorted_witness :
    SortedBySuffix [Seat.mk "R03" "REGULAR" "AVAILABLE", Seat.mk "E01" "ELDER" "BOOKED",
      Seat.mk "R02" "REGULAR" "AVAILABLE"] "R02" 40 :=
  C2_sorted _ _ _ (by decide) (by decide) (by decide)

/-- C3: for every seat and every selected seat type, the seat cell is marked
selectable exactly when the status of the seat is AVAILABLE and its seat type
is the selected seat type; the seats kept by `filteredSeats` are the seats of
the loaded list that satisfy the same condition. -/
theorem C3_selectable_iff (seat : Seat) (selectedSeatNumber selectedSeatType : String)
    (st : BookingForm) :
    (SeatLayout.selectable selectedSeatType (SeatLayout.toView selectedSeatNumber seat) = true ↔
        (seat.status = "AVAILABLE" ∧ seat.seatType = selectedSeatType)) ∧
      (seat ∈ AddBooking.filteredSeats st ↔
        (seat ∈ st.availableSeats ∧
          SeatLayout.selectable st.selectedSeatType
            (SeatLayout.toView st.formData.seatNumber seat) = true)) := by
  constructor
  · simp only [SeatLayout.selectable, SeatLayout.toView, Bool.and_eq_true, decide_eq_true_eq]
    constructor
    · rintro ⟨h1, h2⟩
      exact ⟨h1, h2.symm⟩
    · rintro ⟨h1, h2⟩
      exact ⟨h1, h2.symm⟩
  · simp only [AddBooking.filteredSeats, List.mem_filter, SeatLayout.selectable,
      SeatLayout.toView, Bool.and_eq_true, decide_eq_true_eq]
    constructor
    · rintro ⟨h0, h1, h2⟩
      exact ⟨h0, h2, h1.symm⟩
    · rintro ⟨h0, h1, h2⟩
      exact ⟨h0, h2.symm, h1⟩

/-- C4: a click on a seat whose status is not AVAILABLE or whose seat type is
not the selected seat type leaves the whole form state as it was; a click on a
seat that is AVAILABLE and of the selected seat type sets `formData.seatNumber`
to the number of that seat and changes nothing else. -/
theorem C4_click_frame (st : BookingForm) (seat : Seat) :
    ((seat.status ≠ "AVAILABLE" ∨ seat.seatType ≠ st.selectedSeatType) →
        AddBooking.clickSeat st seat = st) ∧
      ((seat.status = "AVAILABLE" ∧ seat.seatType = st.selectedSeatType) →
        AddBooking.clickSeat st seat =
          { st with formData := { st.formData with seatNumber := seat.seatNumber } }) := by
  constructor
  · intro h
    unfold AddBooking.clickSeat SeatLayout.onClick
    rw [if_neg]
    · rfl
    · simp only [SeatLayout.toView, Bool.and_eq_true, decide_eq_true_eq, not_and]
      intro h1 h2
      rcases h with h | h
      · exact h h1
      · exact h h2.symm
  · rintro ⟨h1, h2⟩
    unfold AddBooking.clickSeat SeatLayout.onClick
    rw [if_pos]
    · rfl
    · simp only [SeatLayout.toView, Bool.and_eq_true, decide_eq_true_eq]
      exact ⟨h1, h2.symm⟩

/-- Witness of C4 on the booked seat R06 of the sample bus. -/
theorem C4_click_frame_witness :
    AddBooking.clickSeat (AddBooking.run (some sampleAdmin) adminLoadedForm adminPicksElderSeat)
        { seatNumber := "R06", seatType := "REGULAR", status := "BOOKED" } =
      AddBooking.run (some sampleAdmin) adminLoadedForm adminPicksElderSeat :=
  (C4_click_frame _ _).1 (Or.inl (by decide))

/-- C5: the display state of a seat is `selected` when its number is the
selected seat number, otherwise `occupied` when its status is BOOKED, otherwise
`priority` when its seat type is not REGULAR, otherwise `available`; it is
always one of these four. -/
theorem C5_display_state (seat : Seat) (selectedSeatNumber : String) :
    SeatLayout.displayState (SeatLayout.toView selectedSeatNumber seat) =
        (if seat.seatNumber = selectedSeatNumber then "selected"
         else if seat.status = "BOOKED" then "occupied"
         else if seat.seatType ≠ "REGULAR" then "priority"
         else "available") ∧
      SeatLayout.displayState (SeatLayout.toView selectedSeatNumber seat) ∈
        ["selected", "occupied", "priority", "available"] := by
  have h : SeatLayout.displayState (SeatLayout.toView selectedSeatNumber seat) =
        (if seat.seatNumber = selectedSeatNumber then "selected"
         else if seat.status = "BOOKED" then "occupied"
         else if seat.seatType ≠ "REGULAR" then "priority"
         else "available") := by
    simp only [SeatLayout.displayState, SeatLayout.toView, decide_eq_true_eq]
  refine ⟨h, ?_⟩
  rw [h]
  split
  · simp
  · split
    · simp
    · split <;> simp

/-- C6: for an administrator, whatever the priority info (absent, or present
with any flags), none of the REGULAR, ELDER and PREGNANT choices is disabled. -/
theorem C6_admin_nothing_disabled (currentUser : AuthUser)
    (userPriority : Option UserPriorityInfo) (hrole : currentUser.role = "ADMIN") :
    AddBooking.regularDisabled = false ∧
      AddBooking.elderDisabled userPriority (some currentUser) = some false ∧
      AddBooking.pregnantDisabled userPriority (some currentUser) = some false := by
  refine ⟨rfl, ?_, ?_⟩
  · unfold AddBooking.elderDisabled AddBooking.priorityDisabled
    split <;> simp [hrole]
  · unfold AddBooking.pregnantDisabled AddBooking.priorityDisabled
    split <;> simp [hrole]

/-- Witness of C6 for the sample administrator and a user eligible for nothing. -/
theorem C6_admin_nothing_disabled_witness :
    AddBooking.regularDisabled = false ∧
      AddBooking.elderDisabled
        (some { elderlyPriorityEligible := false, pregnantPriorityEligible := false,
                recommendedSeatType := some "REGULAR" }) (some sampleAdmin) = some false ∧
      AddBooking.pregnantDisabled
        (some { elderlyPriorityEligible := false, pregnantPriorityEligible := false,
                recommendedSeatType := some "REGULAR" }) (some sampleAdmin) = some false :=
  C6_admin_nothing_disabled sampleAdmin _ (by decide)

/-- C7: for a current user who is not an administrator and a priority info that
is present, the ELDER choice is disabled exactly when `elderlyPriorityEligible`
is false, the PREGNANT choice exactly when `pregnantPriorityEligible` is false,
and the REGULAR choice never. -/
theorem C7_user_gating (currentUser : AuthUser) (priorityInfo : UserPriorityInfo)
    (hrole : currentUser.role ≠ "ADMIN") :
    AddBooking.regularDisabled = false ∧
      AddBooking.elderDisabled (some priorityInfo) (some currentUser) =
        some (!priorityInfo.elderlyPriorityEligible) ∧
      AddBooking.pregnantDisabled (some priorityInfo) (some currentUser) =
        some (!priorityInfo.pregnantPriorityEligible) := by
  obtain ⟨elderly, pregnant, recommended⟩ := priorityInfo
  refine ⟨rfl, ?_, ?_⟩
  · unfold AddBooking.elderDisabled AddBooking.priorityDisabled notEligible
    cases elderly <;> simp [hrole]
  · unfold AddBooking.pregnantDisabled AddBooking.priorityDisabled notEligible
    cases pregnant <;> simp [hrole]

/-- Witness of C7 for the sample passenger, eligible for ELDER only. -/
theorem C7_user_gating_witness :
    AddBooking.regularDisabled = false ∧
      AddBooking.elderDisabled
        (some { elderlyPriorityEligible := true, pregnantPriorityEligible := false,
                recommendedSeatType := some "ELDER" }) (some samplePassenger) = some false ∧
      AddBooking.pregnantDisabled
        (some { elderlyPriorityEligible := true, pregnantPriorityEligible := false,
                recommendedSeatType := some "ELDER" }) (some samplePassenger) = some true :=
  C7_user_gating samplePassenger _ (by decide)

/-- C8: with a known priority info, a submit with seat type ELDER while
`elderlyPriorityEligible` is false, or with seat type PREGNANT while
`pregnantPriorityEligible` is false, is rejected in both copies of the form: the
error becomes the message of that seat type, loading is false again, no effect
is issued (no draft reaches the payment step, no request is sent) and every
other part of the state, the form data included, is as before. The role of the
current user is not read. -/
theorem C8_submit_rejected (st : BookingForm) (priorityInfo : UserPriorityInfo)
    (hinfo : st.userPriority = some priorityInfo) :
    (st.selectedSeatType = "ELDER" → priorityInfo.elderlyPriorityEligible = false →
        AddBooking.handleSubmit st =
            ({ st with
                loading := false
                error := some
                  "You are not eligible for elderly priority seating. Please select a different seat type." },
              []) ∧
          RootCopy.handleSubmit st =
            ({ st with
                loading := false
                error := some
                  "You are not eligible for elderly priority seating. Please select a different seat type." },
              [])) ∧
      (st.selectedSeatType = "PREGNANT" → priorityInfo.pregnantPriorityEligible = false →
        AddBooking.handleSubmit st =
            ({ st with
                loading := false
                error := some
                  "You are not eligible for pregnant priority seating. Please select a different seat type." },
              []) ∧
          RootCopy.handleSubmit st =
            ({ st with
                loading := false
                error := some
                  "You are not eligible for pregnant priority seating. Please select a different seat type." },
              [])) := by
  constructor
  · intro htype hflag
    have h1 : ¬ (st.selectedSeatType = "PREGNANT" ∧
        notEligible (fun p => p.pregnantPriorityEligible) st.userPriority = true) := by
      rw [htype]
      intro h
      exact absurd h.1 (by decide)
    have h2 : st.selectedSeatType = "ELDER" ∧
        notEligible (fun p => p.elderlyPriorityEligible) st.userPriority = true := by
      refine ⟨htype, ?_⟩
      rw [hinfo]
      simp [notEligible, hflag]
    constructor
    · simp only [AddBooking.handleSubmit, if_neg h1, if_pos h2]
    · simp only [RootCopy.handleSubmit, if_neg h1, if_pos h2]
  · intro htype hflag
    have h1 : st.selectedSeatType = "PREGNANT" ∧
        notEligible (fun p => p.pregnantPriorityEligible) st.userPriority = true := by
      refine ⟨htype, ?_⟩
      rw [hinfo]
      simp [notEligible, hflag]
    constructor
    · simp only [AddBooking.handleSubmit, if_pos h1]
    · simp only [RootCopy.handleSubmit, if_pos h1]

/-- Witness of C8: the sample passenger, eligible for nothing, submits with seat
type ELDER. -/
theorem C8_submit_rejected_witness :
    AddBooking.handleSubmit
        { AddBooking.initialState (some samplePassenger) (some "3") "2025-01-01T10:00" with
          selectedSeatType := "ELDER"
          userPriority := some { elderlyPriorityEligible := false,
                                 pregnantPriorityEligible := false,
                                 recommendedSeatType := some "REGULAR" } } =
        ({ AddBooking.initialState (some samplePassenger) (some "3") "2025-01-01T10:00" with
            selectedSeatType := "ELDER"
            userPriority := some { elderlyPriorityEligible := false,
                                   pregnantPriorityEligible := false,
                                   recommendedSeatType := some "REGULAR" }
            loading := false
            error := some
              "You are not eligible for elderly priority seating. Please select a different seat type." },
          []) :=
  ((C8_submit_rejected _ _ rfl).1 rfl rfl).1

/-- C9: the administrator of the sample run picks user 7, who is eligible for
nothing. The ELDER choice is not disabled for the administrator, the ELDER seat
E01 is selectable and gets selected, and yet `handleSubmit` rejects the booking
for ineligibility and issues no effect: no draft is produced. -/
theorem C9_admin_submit_rejected :
    AddBooking.elderDisabled
        (AddBooking.run (some sampleAdmin) adminLoadedForm adminPicksElderSeat).userPriority
        (some sampleAdmin) = some false ∧
      (AddBooking.run (some sampleAdmin) adminLoadedForm adminPicksElderSeat).formData.seatNumber
        = "E01" ∧
      AddBooking.handleSubmit
          (AddBooking.run (some sampleAdmin) adminLoadedForm adminPicksElderSeat) =
        ({ AddBooking.run (some sampleAdmin) adminLoadedForm adminPicksElderSeat with
            loading := false
            error := some
              "You are not eligible for elderly priority seating. Please select a different seat type." },
          []) := by
  decide

/-- C10: in the sample run the administrator selects the REGULAR seat R05 and
then picks user 9, whose priority info recommends ELDER. The run starts in a
state that satisfies the selection invariant and ends with seat R05 still
selected, a REGULAR seat in the loaded list, while the selected seat type is
ELDER: the invariant is broken, and `handleSubmit` hands that seat on in the
draft. -/
theorem C10_selection_invariant_broken :
    AddBooking.SelectionMatchesType adminLoadedForm ∧
      (AddBooking.run (some sampleAdmin) adminLoadedForm adminReselectsUser).formData.seatNumber
        = "R05" ∧
      (AddBooking.run (some sampleAdmin) adminLoadedForm adminReselectsUser).selectedSeatType
        = "ELDER" ∧
      ({ seatNumber := "R05", seatType := "REGULAR", status := "AVAILABLE" } : Seat) ∈
        (AddBooking.run (some sampleAdmin) adminLoadedForm adminReselectsUser).availableSeats ∧
      ¬ AddBooking.SelectionMatchesType
          (AddBooking.run (some sampleAdmin) adminLoadedForm adminReselectsUser) ∧
      (AddBooking.handleSubmit
          (AddBooking.run (some sampleAdmin) adminLoadedForm adminReselectsUser)).2 =
        [Effect.navigate "/payment"
          (some { userId := JSNumber.fin 9, busId := JSNumber.fin 3,
                  bookingDate := "2025-01-01T10:00", seatNumber := "R05",
                  amount := JSValue.num (JSNumber.fin 500), status := "PENDING",
                  bus := some sampleBus })] := by
  refine ⟨?_, by decide, by decide, by decide, ?_, by decide⟩
  · intro h
    exact absurd rfl h
  · intro h
    have h2 := h (by decide) { seatNumber := "R05", seatType := "REGULAR", status := "AVAILABLE" }
      (by decide) (by decide)
    revert h2
    decide


/-! ### The booking flow: draft, payment, booking list -/


/-- A change of the user, bus or booking date input leaves the seat number,
amount and status fields of the form data as they were. -/
theorem set_frame (f : FormData) (name value : String)
    (h : name = "userId" ∨ name = "busId" ∨ name = "bookingDate") :
    (f.set name value).seatNumber = f.seatNumber ∧ (f.set name value).amount = f.amount ∧
      (f.set name value).status = f.status := by
  rcases h with h | h | h <;> subst h <;> simp [FormData.set]

/-- The invariant that C11 rests on: in every reachable state of the form the
status field is PENDING and, when a bus is selected, the amount field is the
price of that bus. -/
theorem reachable_status_amount {currentUser : Option AuthUser} {busIdFromUrl : Option String}
    {now : String} {st : BookingForm}
    (h : AddBooking.Reachable currentUser busIdFromUrl now st) :
    st.formData.status = "PENDING" ∧
      ∀ bus, st.selectedBus = some bus →
        st.formData.amount = JSValue.num (JSNumber.fin bus.price) := by
  induction h with
  | init =>
    simp [AddBooking.initialState]
  | loaded st busesData usersData _ ih =>
    unfold AddBooking.dataLoaded
    cases busIdFromUrl with
    | none => exact ih
    | some b =>
      simp only
      split
      · split
        · rename_i bus hfind
          refine ⟨ih.1, ?_⟩
          intro bus2 hb
          simp only [Option.some.injEq] at hb
          rw [← hb]
        · exact ih
      · exact ih
  | loadFailed st _ ih => exact ih
  | seatsFailure st _ ih => exact ih
  | priorityFailure st _ ih => exact ih
  | event st e _ he ih =>
    cases e with
    | change name value =>
      simp only [AddBooking.Event.ofForm, Bool.or_eq_true, decide_eq_true_eq] at he
      simp only [AddBooking.step, AddBooking.handleChange]
      have hname : name = "userId" ∨ name = "busId" ∨ name = "bookingDate" := by
        rcases he with (he | he) | he
        · exact Or.inl he
        · exact Or.inr (Or.inl he)
        · exact Or.inr (Or.inr he)
      have hset := set_frame st.formData name value hname
      split
      · split
        · rename_i bus hfind
          refine ⟨hset.2.2.trans ih.1, ?_⟩
          intro bus2 hb
          simp only [Option.some.injEq] at hb
          rw [← hb]
        · exact ⟨hset.2.2.trans ih.1, fun bus hb => hset.2.1.trans (ih.2 bus hb)⟩
      · exact ⟨hset.2.2.trans ih.1, fun bus hb => hset.2.1.trans (ih.2 bus hb)⟩
    | seatTypeChange value => exact ih
    | seatClick seat =>
      simp only [AddBooking.step]
      split
      · unfold AddBooking.clickSeat SeatLayout.onClick
        split
        · exact ih
        · exact ih
      · exact ih
    | seatsResponse seats counts => exact ih
    | priorityResponse priorityInfo =>
      simp only [AddBooking.step, AddBooking.priorityLoaded]
      split
      · split
        · split
          · exact ih
          · split
            · exact ih
            · exact ih
        · exact ih
      · exact ih
  | submitted st _ ih =>
    unfold AddBooking.handleSubmit
    simp only
    split
    · exact ih
    · split
      · exact ih
      · exact ih

/-- The sample passenger form with seat R05 selected is a reachable state. -/
theorem passengerSeatChosen_reachable :
    AddBooking.Reachable (some samplePassenger) none "2025-01-01T10:00" passengerSeatChosen := by
  have h0 : AddBooking.Reachable (some samplePassenger) none "2025-01-01T10:00"
      passengerLoadedForm :=
    AddBooking.Reachable.loaded _ [sampleBus] [] AddBooking.Reachable.init
  have h1 := AddBooking.Reachable.event _
    (AddBooking.Event.priorityResponse
      { elderlyPriorityEligible := false, pregnantPriorityEligible := false,
        recommendedSeatType := some "REGULAR" }) h0 rfl
  have h2 := AddBooking.Reachable.event _ (AddBooking.Event.change "busId" "3") h1 (by decide)
  have h3 := AddBooking.Reachable.event _
    (AddBooking.Event.seatsResponse sampleSeats [("REGULAR", 1), ("ELDER", 1)]) h2 rfl
  have h4 := AddBooking.Reachable.event _
    (AddBooking.Event.seatClick
      { seatNumber := "R05", seatType := "REGULAR", status := "AVAILABLE" }) h3 rfl
  exact h4

/-- In every reachable state of the form without a selected bus the amount
field is the empty string it started with. -/
theorem reachable_no_bus_no_amount {currentUser : Option AuthUser}
    {busIdFromUrl : Option String} {now : String} {st : BookingForm}
    (h : AddBooking.Reachable currentUser busIdFromUrl now st) :
    st.selectedBus = none → st.formData.amount = JSValue.str "" := by
  induction h with
  | init =>
    intro _
    rfl
  | loaded st busesData usersData _ ih =>
    unfold AddBooking.dataLoaded
    cases busIdFromUrl with
    | none => exact ih
    | some b =>
      simp only
      split
      · split
        · intro hb
          simp at hb
        · exact ih
      · exact ih
  | loadFailed st _ ih => exact ih
  | seatsFailure st _ ih => exact ih
  | priorityFailure st _ ih => exact ih
  | event st e _ he ih =>
    cases e with
    | change name value =>
      simp only [AddBooking.Event.ofForm, Bool.or_eq_true, decide_eq_true_eq] at he
      simp only [AddBooking.step, AddBooking.handleChange]
      have hname : name = "userId" ∨ name = "busId" ∨ name = "bookingDate" := by
        rcases he with (he | he) | he
        · exact Or.inl he
        · exact Or.inr (Or.inl he)
        · exact Or.inr (Or.inr he)
      have hset := set_frame st.formData name value hname
      split
      · split
        · intro hb
          simp at hb
        · exact fun hb => hset.2.1.trans (ih hb)
      · exact fun hb => hset.2.1.trans (ih hb)
    | seatTypeChange value => exact ih
    | seatClick seat =>
      simp only [AddBooking.step]
      split
      · unfold AddBooking.clickSeat SeatLayout.onClick
        split
        · exact ih
        · exact ih
      · exact ih
    | seatsResponse seats counts => exact ih
    | priorityResponse priorityInfo =>
      simp only [AddBooking.step, AddBooking.priorityLoaded]
      split
      · split
        · split
          · exact ih
          · split
            · exact ih
            · exact ih
        · exact ih
      · exact ih
  | submitted st _ ih =>
    unfold AddBooking.handleSubmit
    simp only
    split
    · exact ih
    · split
      · exact ih
      · exact ih

/-- The form opened with `?busId=3` whose list request failed, with seat E01
selected, is a reachable state. -/
theorem urlFormSeatChosen_reachable :
    AddBooking.Reachable (some samplePassenger) (some "3") "2025-01-01T10:00"
      urlFormSeatChosen := by
  have h0 : AddBooking.Reachable (some samplePassenger) (some "3") "2025-01-01T10:00"
      urlFormListFailed :=
    AddBooking.Reachable.loadFailed _ AddBooking.Reachable.init
  have h1 := AddBooking.Reachable.event _ (AddBooking.Event.seatTypeChange "ELDER") h0 rfl
  have h2 := AddBooking.Reachable.event _
    (AddBooking.Event.seatsResponse sampleSeats [("REGULAR", 1), ("ELDER", 1)]) h1 rfl
  have h3 := AddBooking.Reachable.event _
    (AddBooking.Event.seatClick
      { seatNumber := "E01", seatType := "ELDER", status := "AVAILABLE" }) h2 rfl
  exact h3

/-- C11 (amended): in every reachable state of the form in which neither
eligibility check of `handleSubmit` fires, `handleSubmit` issues exactly one
effect, the navigation to the payment step carrying a draft, and no request.
The user id and bus id of the draft are the integer parses of the form values,
the seat number and booking date are the form values and the status is
PENDING. The amount of the draft is the amount field of the form and its bus
is the selected bus: with a bus selected the amount is the price of that bus,
and with no bus selected the amount is the empty string and the bus is
absent. -/
theorem C11_draft (currentUser : Option AuthUser) (busIdFromUrl : Option String) (now : String)
    (st : BookingForm) (hreach : AddBooking.Reachable currentUser busIdFromUrl now st)
    (hpregnant : ¬ (st.selectedSeatType = "PREGNANT" ∧
      notEligible (fun p => p.pregnantPriorityEligible) st.userPriority = true))
    (helder : ¬ (st.selectedSeatType = "ELDER" ∧
      notEligible (fun p => p.elderlyPriorityEligible) st.userPriority = true)) :
    ∃ draft : BookingData,
      AddBooking.handleSubmit st =
          ({ st with loading := true, error := none },
            [Effect.navigate "/payment" (some draft)]) ∧
        draft.userId = parseInt st.formData.userId.toJSString ∧
        draft.busId = parseInt st.formData.busId ∧
        draft.seatNumber = st.formData.seatNumber ∧
        draft.bookingDate = st.formData.bookingDate ∧
        draft.status = "PENDING" ∧
        draft.amount = st.formData.amount ∧
        draft.bus = st.selectedBus ∧
        (∀ bus, st.selectedBus = some bus →
          draft.amount = JSValue.num (JSNumber.fin bus.price) ∧ draft.bus = some bus) ∧
        (st.selectedBus = none → draft.amount = JSValue.str "" ∧ draft.bus = none) := by
  have hinv := reachable_status_amount hreach
  have hnone := reachable_no_bus_no_amount hreach
  refine ⟨{ userId := parseInt st.formData.userId.toJSString
            busId := parseInt st.formData.busId
            bookingDate := st.formData.bookingDate
            seatNumber := st.formData.seatNumber
            amount := st.formData.amount
            status := st.formData.status
            bus := st.selectedBus }, ?_, rfl, rfl, rfl, rfl, hinv.1, rfl, rfl, ?_, ?_⟩
  · simp only [AddBooking.handleSubmit, if_neg hpregnant, if_neg helder]
  · intro bus hbus
    exact ⟨hinv.2 bus hbus, hbus⟩
  · intro hbus
    exact ⟨hnone hbus, hbus⟩

/-- C11 as stated fails: the form is opened with `?busId=3` and the request for
the bus list fails, so no bus is ever selected; the ELDER choice requests the
seats of bus 3, seat E01 is clicked and the eligibility check passes because
no priority info was loaded. `handleSubmit` hands on a draft for bus 3 whose
amount is the empty string and whose bus is absent: the amount is the price of
no bus. -/
theorem C11_counterexample :
    AddBooking.Reachable (some samplePassenger) (some "3") "2025-01-01T10:00"
        urlFormSeatChosen ∧
      (AddBooking.handleSeatTypeChange urlFormListFailed "ELDER").2 =
        AddBooking.fetchSeatsForBus (JSValue.str "3") ∧
      urlFormSeatChosen.selectedBus = none ∧
      AddBooking.handleSubmit urlFormSeatChosen =
        ({ urlFormSeatChosen with loading := true, error := none },
          [Effect.navigate "/payment"
            (some { userId := JSNumber.fin 7, busId := JSNumber.fin 3,
                    bookingDate := "2025-01-01T10:00", seatNumber := "E01",
                    amount := JSValue.str "", status := "PENDING", bus := none })]) ∧
      ∀ draft : BookingData,
        (AddBooking.handleSubmit urlFormSeatChosen).2 =
            [Effect.navigate "/payment" (some draft)] →
          ∀ bus : Bus, draft.amount ≠ JSValue.num (JSNumber.fin bus.price) := by
  refine ⟨urlFormSeatChosen_reachable, by decide, by decide, by decide, ?_⟩
  intro draft hdraft bus
  have h : (AddBooking.handleSubmit urlFormSeatChosen).2 =
      [Effect.navigate "/payment"
        (some { userId := JSNumber.fin 7, busId := JSNumber.fin 3,
                bookingDate := "2025-01-01T10:00", seatNumber := "E01",
                amount := JSValue.str "", status := "PENDING", bus := none })] := by
    decide
  rw [h] at hdraft
  simp only [List.cons.injEq, Effect.navigate.injEq, Option.some.injEq, and_true,
    true_and] at hdraft
  rw [← hdraft]
  simp

/-- Witness of C11 (amended): user 7 with seat R05 of bus 3 (price 500)
selected; the draft is the draft of the sample flow. -/
theorem C11_draft_witness :
    (∃ draft : BookingData,
      AddBooking.handleSubmit passengerSeatChosen =
          ({ passengerSeatChosen with loading := true, error := none },
            [Effect.navigate "/payment" (some draft)]) ∧
        draft.userId = parseInt passengerSeatChosen.formData.userId.toJSString ∧
        draft.busId = parseInt passengerSeatChosen.formData.busId ∧
        draft.seatNumber = passengerSeatChosen.formData.seatNumber ∧
        draft.bookingDate = passengerSeatChosen.formData.bookingDate ∧
        draft.status = "PENDING" ∧
        draft.amount = passengerSeatChosen.formData.amount ∧
        draft.bus = passengerSeatChosen.selectedBus ∧
        (∀ bus, passengerSeatChosen.selectedBus = some bus →
          draft.amount = JSValue.num (JSNumber.fin bus.price) ∧ draft.bus = some bus) ∧
        (passengerSeatChosen.selectedBus = none →
          draft.amount = JSValue.str "" ∧ draft.bus = none)) ∧
      (AddBooking.handleSubmit passengerSeatChosen).2 =
        [Effect.navigate "/payment" (some sampleDraft)] :=
  ⟨C11_draft (some samplePassenger) none "2025-01-01T10:00" passengerSeatChosen
      passengerSeatChosen_reachable (by decide) (by decide),
    by decide⟩

/-- C12: for every draft the one effect of `handleConfirmPayment` is the
create-booking request, and its payload has status CONFIRMED and every other
field, the bus included, equal to that of the draft. -/
theorem C12_payload (bookingData : BookingData) (st : PaymentState) :
    ∃ payload : BookingData,
      (PaymentPage.handleConfirmPayment bookingData st).2 = [PaymentEffect.addBooking payload] ∧
        payload.status = "CONFIRMED" ∧
        payload.userId = bookingData.userId ∧
        payload.busId = bookingData.busId ∧
        payload.bookingDate = bookingData.bookingDate ∧
        payload.seatNumber = bookingData.seatNumber ∧
        payload.amount = bookingData.amount ∧
        payload.bus = bookingData.bus :=
  ⟨PaymentPage.bookingPayload bookingData, rfl, rfl, rfl, rfl, rfl, rfl, rfl, rfl⟩

/-- C13: in the sample flow `handleSubmit` hands the payment step a draft that
holds the selected bus next to the six booking fields, and the payload that
`handleConfirmPayment` passes to the create-booking request still holds it: the
body has a seventh field `bus`. -/
theorem C13_payload_carries_bus :
    (AddBooking.handleSubmit passengerSeatChosen).2 =
        [Effect.navigate "/payment" (some sampleDraft)] ∧
      (PaymentPage.handleConfirmPayment sampleDraft PaymentPage.initialState).2 =
        [PaymentEffect.addBooking
          { userId := JSNumber.fin 7, busId := JSNumber.fin 3,
            bookingDate := "2025-01-01T10:00", seatNumber := "R05",
            amount := JSValue.num (JSNumber.fin 500), status := "CONFIRMED",
            bus := some sampleBus }] := by
  decide

/-- C14 (amended): a change of the bus select to a value whose integer parse is
the id of a bus of the loaded list, and every change of the seat type, end in a
state with no seat selected. -/
theorem C14_selection_cleared (currentUser : Option AuthUser) (st : BookingForm)
    (value newSeatType : String) :
    (∀ bus, st.buses.find? (fun bus => decide (JSNumber.fin bus.id = parseInt value)) = some bus →
        (AddBooking.handleChange currentUser st "busId" value).1.formData.seatNumber = "") ∧
      (AddBooking.handleSeatTypeChange st newSeatType).1.formData.seatNumber = "" := by
  refine ⟨?_, rfl⟩
  intro bus hfind
  simp only [AddBooking.handleChange, if_true, hfind]

/-- Witness of C14 (amended): the sample passenger, with seat R05 selected,
picks bus 3 again. -/
theorem C14_selection_cleared_witness :
    (AddBooking.handleChange (some samplePassenger) passengerSeatChosen "busId"
      "3").1.formData.seatNumber = "" :=
  (C14_selection_cleared (some samplePassenger) passengerSeatChosen "3" "ELDER").1 sampleBus
    (by decide)

/-- C14 as stated fails: the sample passenger has seat R05 selected and sets
the bus select to its empty option, which is no bus of the list; the bus id
of the form becomes empty and seat R05 stays selected. -/
theorem C14_counterexample :
    passengerSeatChosen.formData.seatNumber = "R05" ∧
      (AddBooking.handleChange (some samplePassenger) passengerSeatChosen "busId"
        "").1.formData.busId = "" ∧
      (AddBooking.handleChange (some samplePassenger) passengerSeatChosen "busId"
        "").1.formData.seatNumber = "R05" := by
  decide

/-- C15: a priority-info response whose `recommendedSeatType` is a non-empty
string makes that string the selected seat type; a response without one (the
field missing or empty) leaves the selected seat type as it was, and so does a
failed request; the selected seat type of the initial state is REGULAR. -/
theorem C15_recommended_type (st : BookingForm) (priorityInfo : UserPriorityInfo)
    (currentUser : Option AuthUser) (busIdFromUrl : Option String) (now : String) :
    (∀ recommended, priorityInfo.recommendedSeatType = some recommended → recommended ≠ "" →
        (AddBooking.priorityLoaded st priorityInfo).selectedSeatType = recommended) ∧
      ((priorityInfo.recommendedSeatType = none ∨ priorityInfo.recommendedSeatType = some "") →
        (AddBooking.priorityLoaded st priorityInfo).selectedSeatType = st.selectedSeatType) ∧
      (AddBooking.priorityFailed st).selectedSeatType = st.selectedSeatType ∧
      (AddBooking.initialState currentUser busIdFromUrl now).selectedSeatType = "REGULAR" := by
  refine ⟨?_, ?_, rfl, rfl⟩
  · intro recommended hrec hne
    have ht : strTruthy recommended = true := by simp [strTruthy, hne]
    simp only [AddBooking.priorityLoaded, hrec, ht, if_true]
    split
    · rfl
    · split <;> rfl
  · intro h
    rcases h with h | h
    · simp only [AddBooking.priorityLoaded, h]
    · have hf : strTruthy "" = false := by decide
      simp only [AddBooking.priorityLoaded, h, hf, Bool.false_eq_true, if_false]

/-- Witness of C15: a response that recommends ELDER, on the administrator
form. -/
theorem C15_recommended_type_witness :
    (AddBooking.priorityLoaded adminLoadedForm
      { elderlyPriorityEligible := true, pregnantPriorityEligible := false,
        recommendedSeatType := some "ELDER" }).selectedSeatType = "ELDER" :=
  (C15_recommended_type adminLoadedForm
    { elderlyPriorityEligible := true, pregnantPriorityEligible := false,
      recommendedSeatType := some "ELDER" } none none "").1 "ELDER" rfl (by decide)

/-- C16 (amended): for a priority-info response that carries a recommended
seat type, the message after the response is the pregnant-eligibility message
whenever `pregnantPriorityEligible` is true, in particular when both flags are
true, and that message is not the elderly one; it is the elderly-eligibility
message when `pregnantPriorityEligible` is false and `elderlyPriorityEligible`
is true; the response turns the message into the elderly one only in that
case; and a response with both flags false leaves the message it found. -/
theorem C16_message_precedence (st : BookingForm) (priorityInfo : UserPriorityInfo)
    (recommended : String) (hrec : priorityInfo.recommendedSeatType = some recommended)
    (hne : recommended ≠ "") :
    (priorityInfo.pregnantPriorityEligible = true →
        (AddBooking.priorityLoaded st priorityInfo).priorityMessage =
            "You are eligible for pregnant priority seating." ∧
          (AddBooking.priorityLoaded st priorityInfo).priorityMessage ≠
            "You are eligible for elderly priority seating.") ∧
      (priorityInfo.pregnantPriorityEligible = false →
        priorityInfo.elderlyPriorityEligible = true →
        (AddBooking.priorityLoaded st priorityInfo).priorityMessage =
          "You are eligible for elderly priority seating.") ∧
      ((AddBooking.priorityLoaded st priorityInfo).priorityMessage =
          "You are eligible for elderly priority seating." →
        st.priorityMessage ≠ "You are eligible for elderly priority seating." →
        priorityInfo.pregnantPriorityEligible = false ∧
          priorityInfo.elderlyPriorityEligible = true) ∧
      (priorityInfo.pregnantPriorityEligible = false →
        priorityInfo.elderlyPriorityEligible = false →
        (AddBooking.priorityLoaded st priorityInfo).priorityMessage = st.priorityMessage) ∧
      (AddBooking.priorityLoaded st priorityInfo).selectedSeatType = recommended := by
  have ht : strTruthy recommended = true := by simp [strTruthy, hne]
  obtain ⟨elderly, pregnant, rec⟩ := priorityInfo
  simp only at hrec
  subst hrec
  cases pregnant <;> cases elderly <;>
    simp [AddBooking.priorityLoaded, ht]

/-- C16 as stated fails: an administrator picks user 9, whose priority info
has the elderly flag alone, and the elderly message is surfaced; the
administrator then picks user 7, whose priority info has a recommended seat
type and both flags false. The request for that info is issued, and after its
response the elderly message is still the surfaced one although
`elderlyPriorityEligible` is false. -/
theorem C16_counterexample :
    (AddBooking.run (some sampleAdmin) adminLoadedForm adminReselectsUser).priorityMessage =
        "You are eligible for elderly priority seating." ∧
      (AddBooking.handleChange (some sampleAdmin)
          (AddBooking.run (some sampleAdmin) adminLoadedForm adminReselectsUser)
          "userId" "7").2 = [Effect.getUserPriorityInfo (JSNumber.fin 7)] ∧
      (AddBooking.run (some sampleAdmin) adminLoadedForm adminPicksIneligibleUser).userPriority =
        some { elderlyPriorityEligible := false, pregnantPriorityEligible := false,
               recommendedSeatType := some "REGULAR" } ∧
      (AddBooking.run (some sampleAdmin) adminLoadedForm
          adminPicksIneligibleUser).priorityMessage =
        "You are eligible for elderly priority seating." := by
  refine ⟨by decide, by decide, by decide, by decide⟩

/-- Witness of C16 (amended): both flags true with recommended seat type
PREGNANT gives the selection PREGNANT and the pregnant-eligibility message. -/
theorem C16_message_precedence_witness :
    (AddBooking.priorityLoaded passengerLoadedForm
        { elderlyPriorityEligible := true, pregnantPriorityEligible := true,
          recommendedSeatType := some "PREGNANT" }).priorityMessage =
        "You are eligible for pregnant priority seating." ∧
      (AddBooking.priorityLoaded passengerLoadedForm
        { elderlyPriorityEligible := true, pregnantPriorityEligible := true,
          recommendedSeatType := some "PREGNANT" }).selectedSeatType = "PREGNANT" :=
  have h := C16_message_precedence passengerLoadedForm
    { elderlyPriorityEligible := true, pregnantPriorityEligible := true,
      recommendedSeatType := some "PREGNANT" } "PREGNANT" rfl (by decide)
  ⟨(h.1 rfl).1, h.2.2.2.2⟩

/-- The handler `handleChange` leaves the priority info, the selected seat type
and the priority message as they were. -/
theorem handleChange_view (currentUser : Option AuthUser) (st : BookingForm)
    (name value : String) :
    AddBooking.SameEligibilityView st (AddBooking.handleChange currentUser st name value).1 := by
  unfold AddBooking.SameEligibilityView AddBooking.handleChange
  simp only
  split
  · split
    · exact ⟨rfl, rfl, rfl⟩
    · exact ⟨rfl, rfl, rfl⟩
  · exact ⟨rfl, rfl, rfl⟩

/-- The continuation of the data request leaves the priority info, the selected
seat type and the priority message as they were. -/
theorem dataLoaded_view (currentUser : Option AuthUser) (busIdFromUrl : Option String)
    (st : BookingForm) (busesData : List Bus) (usersData : List User) :
    AddBooking.SameEligibilityView st
      (AddBooking.dataLoaded currentUser busIdFromUrl st busesData usersData).1 := by
  unfold AddBooking.SameEligibilityView AddBooking.dataLoaded
  cases busIdFromUrl with
  | none => exact ⟨rfl, rfl, rfl⟩
  | some b =>
    simp only
    split
    · split
      · exact ⟨rfl, rfl, rfl⟩
      · exact ⟨rfl, rfl, rfl⟩
    · exact ⟨rfl, rfl, rfl⟩

/-- A click on a seat cell leaves the priority info, the selected seat type and
the priority message as they were. -/
theorem clickSeat_view (st : BookingForm) (seat : Seat) :
    AddBooking.SameEligibilityView st (AddBooking.clickSeat st seat) := by
  unfold AddBooking.SameEligibilityView AddBooking.clickSeat SeatLayout.onClick
  split
  · exact ⟨rfl, rfl, rfl⟩
  · exact ⟨rfl, rfl, rfl⟩

/-- The submit handler leaves the priority info, the selected seat type and the
priority message as they were. -/
theorem handleSubmit_view (st : BookingForm) :
    AddBooking.SameEligibilityView st (AddBooking.handleSubmit st).1 := by
  unfold AddBooking.SameEligibilityView AddBooking.handleSubmit
  simp only
  split
  · exact ⟨rfl, rfl, rfl⟩
  · split
    · exact ⟨rfl, rfl, rfl⟩
    · exact ⟨rfl, rfl, rfl⟩

/-- A successful priority response stores the priority info. -/
theorem priorityLoaded_info (st : BookingForm) (priorityInfo : UserPriorityInfo) :
    (AddBooking.priorityLoaded st priorityInfo).userPriority = some priorityInfo := by
  unfold AddBooking.priorityLoaded
  simp only
  split
  · split
    · split
      · rfl
      · split <;> rfl
    · rfl
  · rfl

/-- In every reachable state without priority info the priority message is
empty. -/
theorem reachable_no_info_no_message {currentUser : Option AuthUser}
    {busIdFromUrl : Option String} {now : String} {st : BookingForm}
    (h : AddBooking.Reachable currentUser busIdFromUrl now st) :
    st.userPriority = none → st.priorityMessage = "" := by
  induction h with
  | init => intro _; rfl
  | loaded st busesData usersData _ ih =>
    have hv := dataLoaded_view currentUser busIdFromUrl st busesData usersData
    intro hnone
    rw [hv.2.2]
    exact ih (hv.1 ▸ hnone)
  | loadFailed st _ ih => exact ih
  | seatsFailure st _ ih => exact ih
  | priorityFailure st _ ih => exact ih
  | event st e _ _ ih =>
    cases e with
    | change name value =>
      have hv := handleChange_view currentUser st name value
      intro hnone
      simp only [AddBooking.step] at hnone ⊢
      rw [hv.2.2]
      exact ih (hv.1 ▸ hnone)
    | seatTypeChange value => exact ih
    | seatClick seat =>
      have hv := clickSeat_view st seat
      intro hnone
      simp only [AddBooking.step] at hnone ⊢
      split at hnone
      · rw [if_pos (by assumption), hv.2.2]
        exact ih (hv.1 ▸ hnone)
      · rw [if_neg (by assumption)]
        exact ih hnone
    | seatsResponse seats counts => exact ih
    | priorityResponse priorityInfo =>
      intro hnone
      simp only [AddBooking.step] at hnone
      rw [priorityLoaded_info] at hnone
      exact absurd hnone (by simp)
  | submitted st _ ih =>
    have hv := handleSubmit_view st
    intro hnone
    rw [hv.2.2]
    exact ih (hv.1 ▸ hnone)

/-- C17: in every reachable state of the form without priority info, reading
the `disabled` attributes throws nothing and disables no seat-type choice,
whoever the current user is; `handleSubmit` rejects no seat type and hands the
draft on; no priority message is set; the selected seat type of the initial
state is REGULAR; and every handler and continuation other than the seat-type
choice and a successful priority response leaves the priority info, the
selected seat type and the priority message as they were. -/
theorem C17_absent_info (currentUser : Option AuthUser) (busIdFromUrl : Option String)
    (now : String) (st : BookingForm)
    (hreach : AddBooking.Reachable currentUser busIdFromUrl now st)
    (hnone : st.userPriority = none) :
    AddBooking.regularDisabled = false ∧
      (∀ anyUser : Option AuthUser,
        AddBooking.elderDisabled st.userPriority anyUser = some false ∧
          AddBooking.pregnantDisabled st.userPriority anyUser = some false) ∧
      (∀ seatType : String, ∃ draft : BookingData,
        AddBooking.handleSubmit { st with selectedSeatType := seatType } =
          ({ st with selectedSeatType := seatType, loading := true, error := none },
            [Effect.navigate "/payment" (some draft)])) ∧
      st.priorityMessage = "" ∧
      (AddBooking.initialState currentUser busIdFromUrl now).userPriority = none ∧
      (AddBooking.initialState currentUser busIdFromUrl now).selectedSeatType = "REGULAR" ∧
      (∀ name value,
        AddBooking.SameEligibilityView st (AddBooking.handleChange currentUser st name value).1) ∧
      (∀ seat, AddBooking.SameEligibilityView st (AddBooking.clickSeat st seat)) ∧
      (∀ seats counts,
        AddBooking.SameEligibilityView st (AddBooking.seatsLoaded st seats counts)) ∧
      (∀ busesData usersData,
        AddBooking.SameEligibilityView st
          (AddBooking.dataLoaded currentUser busIdFromUrl st busesData usersData).1) ∧
      AddBooking.SameEligibilityView st (AddBooking.priorityFailed st) ∧
      AddBooking.SameEligibilityView st (AddBooking.seatsFailed st) ∧
      AddBooking.SameEligibilityView st (AddBooking.handleSubmit st).1 := by
  refine ⟨rfl, ?_, ?_, reachable_no_info_no_message hreach hnone, rfl, rfl,
    handleChange_view currentUser st, clickSeat_view st, fun _ _ => ⟨rfl, rfl, rfl⟩,
    dataLoaded_view currentUser busIdFromUrl st, ⟨rfl, rfl, rfl⟩, ⟨rfl, rfl, rfl⟩,
    handleSubmit_view st⟩
  · intro anyUser
    rw [hnone]
    exact ⟨rfl, rfl⟩
  · intro seatType
    refine ⟨{ userId := parseInt st.formData.userId.toJSString
              busId := parseInt st.formData.busId
              bookingDate := st.formData.bookingDate
              seatNumber := st.formData.seatNumber
              amount := st.formData.amount
              status := st.formData.status
              bus := st.selectedBus }, ?_⟩
    simp only [AddBooking.handleSubmit, hnone, notEligible, Bool.false_eq_true, and_false,
      if_false]

/-- Witness of C17: the initial form of the sample passenger. -/
theorem C17_absent_info_witness :
    (∀ anyUser : Option AuthUser,
        AddBooking.elderDisabled
            (AddBooking.initialState (some samplePassenger) none "2025-01-01T10:00").userPriority
            anyUser = some false ∧
          AddBooking.pregnantDisabled
            (AddBooking.initialState (some samplePassenger) none "2025-01-01T10:00").userPriority
            anyUser = some false) ∧
      (AddBooking.initialState (some samplePassenger) none "2025-01-01T10:00").priorityMessage
        = "" :=
  have h := C17_absent_info (some samplePassenger) none "2025-01-01T10:00"
    (AddBooking.initialState (some samplePassenger) none "2025-01-01T10:00")
    AddBooking.Reachable.init rfl
  ⟨h.2.1, h.2.2.2.1⟩

/-- When a cancel request for `id` succeeds, the new list is the list the
handler closed over when it was called, position by position: a booking with
that id has its status replaced by CANCELLED and nothing else, a booking with
another id is the same booking. The list keeps its length, the rest of the
state is as it was, and the handler and its continuation issue the cancel
request and nothing else. -/
theorem cancelSucceeded_patch (bookings : List Booking) (st : BookingListState) (id : Int) :
    BookingList.handleCancelBooking true id = [ListEffect.cancelBooking id] ∧
      (BookingList.cancelSucceeded bookings id st).2 = [] ∧
      (BookingList.cancelSucceeded bookings id st).1.bookings.length = bookings.length ∧
      (∀ (i : Nat) (booking : Booking), bookings[i]? = some booking →
        (booking.id = id →
          (BookingList.cancelSucceeded bookings id st).1.bookings[i]? =
            some { booking with status := "CANCELLED" }) ∧
        (booking.id ≠ id →
          (BookingList.cancelSucceeded bookings id st).1.bookings[i]? = some booking)) ∧
      (BookingList.cancelSucceeded bookings id st).1.loading = st.loading ∧
      (BookingList.cancelSucceeded bookings id st).1.error = st.error ∧
      (BookingList.cancelSucceeded bookings id st).1.statusFilter = st.statusFilter := by
  refine ⟨rfl, rfl, ?_, ?_, rfl, rfl, rfl⟩
  · simp [BookingList.cancelSucceeded]
  · intro i booking hget
    simp only [BookingList.cancelSucceeded, List.getElem?_map, hget, Option.map_some']
    constructor
    · intro h
      rw [if_pos h]
    · intro h
      rw [if_neg h]

/-- C18 fails of the code: the list shows the PENDING bookings 42 and 43, both
cancel buttons are used before either request is answered, so both handlers
closed over the list as rendered. When the cancel of 42 succeeds, booking 42 is
CANCELLED in the local list. When the cancel of 43 then succeeds, the stored
list is the rendered list with booking 43 patched: booking 42, whose id is not
43, goes from CANCELLED back to PENDING. No list is fetched again. -/
theorem C18_stale_list_restores_status :
    BookingList.handleCancelBooking true 42 = [ListEffect.cancelBooking 42] ∧
      BookingList.handleCancelBooking true 43 = [ListEffect.cancelBooking 43] ∧
      (BookingList.cancelSucceeded pendingBookings 42
          { bookings := pendingBookings, loading := false, error := none,
            statusFilter := "" }).1.bookings.map (fun booking => (booking.id, booking.status)) =
        [(42, "CANCELLED"), (43, "PENDING"), (44, "CONFIRMED")] ∧
      (BookingList.cancelSucceeded pendingBookings 43
          (BookingList.cancelSucceeded pendingBookings 42
            { bookings := pendingBookings, loading := false, error := none,
              statusFilter := "" }).1).1.bookings.map
          (fun booking => (booking.id, booking.status)) =
        [(42, "PENDING"), (43, "CANCELLED"), (44, "CONFIRMED")] ∧
      (BookingList.cancelSucceeded pendingBookings 43
          (BookingList.cancelSucceeded pendingBookings 42
            { bookings := pendingBookings, loading := false, error := none,
              statusFilter := "" }).1).1.bookings[0]? ≠
        (BookingList.cancelSucceeded pendingBookings 42
          { bookings := pendingBookings, loading := false, error := none,
            statusFilter := "" }).1.bookings[0]? ∧
      (BookingList.cancelSucceeded pendingBookings 43
          (BookingList.cancelSucceeded pendingBookings 42
            { bookings := pendingBookings, loading := false, error := none,
              statusFilter := "" }).1).2 = [] := by
  refine ⟨by decide, by decide, by decide, by decide, by decide, by decide⟩

/-- C19: with one of the four statuses as filter the filtered list is a sublist
of the bookings (same relative order), holds only bookings with that status
and holds every booking with that status as often as the booking list does;
with the empty filter it is the whole list. -/
theorem C19_status_filter (st : BookingListState) :
    (st.statusFilter ∈ ["PENDING", "CONFIRMED", "CANCELLED", "COMPLETED"] →
        (BookingList.filteredBookings st).Sublist st.bookings ∧
          (∀ booking ∈ BookingList.filteredBookings st, booking.status = st.statusFilter) ∧
          (∀ booking : Booking, booking.status = st.statusFilter →
            (BookingList.filteredBookings st).count booking = st.bookings.count booking)) ∧
      (st.statusFilter = "" → BookingList.filteredBookings st = st.bookings) := by
  constructor
  · intro hmem
    have ht : strTruthy st.statusFilter = true := by
      simp only [List.mem_cons, List.mem_singleton, List.mem_nil_iff, or_false] at hmem
      rcases hmem with h | h | h | h <;> rw [h] <;> decide
    simp only [BookingList.filteredBookings, ht, if_true]
    refine ⟨List.filter_sublist _, ?_, ?_⟩
    · intro booking hb
      simpa using (List.mem_filter.mp hb).2
    · intro booking hb
      exact List.count_filter (by simpa using hb)
  · intro hempty
    have hf : strTruthy st.statusFilter = false := by rw [hempty]; decide
    simp only [BookingList.filteredBookings, hf, Bool.false_eq_true, if_false]

/-- Witness of C19: the sample bookings have the statuses PENDING, CONFIRMED,
CONFIRMED, CANCELLED; the filter CONFIRMED keeps the second and the third. -/
theorem C19_status_filter_witness :
    (BookingList.filteredBookings
        { bookings := sampleBookings, loading := false, error := none,
          statusFilter := "CONFIRMED" }).Sublist sampleBookings ∧
      (BookingList.filteredBookings
        { bookings := sampleBookings, loading := false, error := none,
          statusFilter := "CONFIRMED" }).map (fun booking => booking.id) = [43, 44] :=
  ⟨((C19_status_filter
      { bookings := sampleBookings, loading := false, error := none,
        statusFilter := "CONFIRMED" }).1 (by decide)).1,
    by decide⟩

/-- While every confirmation so far has failed, the success indicator is not
shown and every effect issued is the create-booking request for the draft. -/
theorem foldl_attempt_all_failed (bookingData : BookingData) :
    ∀ (outcomes : List Bool) (page : PaymentState × List PaymentEffect),
      (∀ ok ∈ outcomes, ok = false) → page.1.showSuccess = false →
      (∀ e ∈ page.2, e = PaymentEffect.addBooking { bookingData with status := "CONFIRMED" }) →
      (outcomes.foldl (PaymentPage.attempt bookingData) page).1.showSuccess = false ∧
        ∀ e ∈ (outcomes.foldl (PaymentPage.attempt bookingData) page).2,
          e = PaymentEffect.addBooking { bookingData with status := "CONFIRMED" } := by
  intro outcomes
  induction outcomes with
  | nil =>
    intro page _ hshow heff
    exact ⟨hshow, heff⟩
  | cons ok rest ih =>
    intro page hall hshow heff
    have hok : ok = false := hall ok (List.mem_cons_self _ _)
    subst hok
    rw [List.foldl_cons]
    apply ih
    · intro x hx
      exact hall x (List.mem_cons_of_mem _ hx)
    · exact hshow
    · intro e he
      simp only [PaymentPage.attempt, PaymentPage.handleConfirmPayment,
        PaymentPage.confirmFailed, PaymentPage.bookingPayload, Bool.false_eq_true, if_false,
        List.append_nil, List.mem_append, List.mem_singleton] at he
      rcases he with he | he
      · exact heff e he
      · exact he

/-- C20 (amended): when the create-booking request of a confirmation fails,
the page has the error message set and loading false, the success indicator
is as it was before the confirmation, and the only effect of the confirmation
is the create-booking request: the failure schedules no navigation. The
confirm button is enabled again and a second confirmation sends the same
draft with status CONFIRMED. While no earlier confirmation has succeeded, the
success indicator is not shown and no navigation has been scheduled at all. -/
theorem C20_confirm_failure (bookingData : BookingData) (st : PaymentState)
    (issued : List PaymentEffect) :
    PaymentPage.attempt bookingData (st, issued) false =
        ({ loading := false
           error := some "Failed to confirm payment. Please try again."
           showSuccess := st.showSuccess },
          issued ++ [PaymentEffect.addBooking { bookingData with status := "CONFIRMED" }]) ∧
      (PaymentPage.confirmFailed (PaymentPage.handleConfirmPayment bookingData st).1).2 = [] ∧
      PaymentPage.confirmDisabled (PaymentPage.attempt bookingData (st, issued) false).1 = false ∧
      (PaymentPage.handleConfirmPayment bookingData
          (PaymentPage.attempt bookingData (st, issued) false).1).2 =
        [PaymentEffect.addBooking { bookingData with status := "CONFIRMED" }] ∧
      ∀ outcomes : List Bool, (∀ ok ∈ outcomes, ok = false) →
        (PaymentPage.attempts bookingData (outcomes ++ [false])).1 =
            { loading := false
              error := some "Failed to confirm payment. Please try again."
              showSuccess := false } ∧
          ∀ e ∈ (PaymentPage.attempts bookingData (outcomes ++ [false])).2,
            e = PaymentEffect.addBooking { bookingData with status := "CONFIRMED" } := by
  refine ⟨?_, rfl, rfl, rfl, ?_⟩
  · simp [PaymentPage.attempt, PaymentPage.handleConfirmPayment, PaymentPage.confirmFailed,
      PaymentPage.bookingPayload]
  intro outcomes hall
  have hall2 : ∀ ok ∈ outcomes ++ [false], ok = false := by
    intro ok hok
    rcases List.mem_append.mp hok with h | h
    · exact hall ok h
    · exact List.mem_singleton.mp h
  have hprev := foldl_attempt_all_failed bookingData outcomes (PaymentPage.initialState, [])
    hall rfl (by simp)
  have hlast := foldl_attempt_all_failed bookingData (outcomes ++ [false])
    (PaymentPage.initialState, []) hall2 rfl (by simp)
  refine ⟨?_, hlast.2⟩
  unfold PaymentPage.attempts
  rw [List.foldl_append, List.foldl_cons, List.foldl_nil]
  simp only [PaymentPage.attempt, PaymentPage.handleConfirmPayment, PaymentPage.confirmFailed,
    Bool.false_eq_true, if_false]
  rw [hprev.1]

/-- C20 as stated fails: the first confirmation succeeds, which shows the
success indicator and schedules the navigation, and leaves the confirm button
enabled; a second confirmation is made and its request fails. The page then
has the error message set while the success indicator is shown and the
navigation is scheduled. -/
theorem C20_counterexample :
    PaymentPage.confirmDisabled (PaymentPage.attempts sampleDraft [true]).1 = false ∧
      PaymentPage.attempts sampleDraft [true, false] =
        ({ loading := false
           error := some "Failed to confirm payment. Please try again."
           showSuccess := true },
          [PaymentEffect.addBooking { sampleDraft with status := "CONFIRMED" },
           PaymentEffect.navigateAfter 2000 "/bookings",
           PaymentEffect.addBooking { sampleDraft with status := "CONFIRMED" }]) := by
  refine ⟨by decide, by decide⟩

/-- Witness of C20 (amended): the first two confirmations of the sample draft
both fail. -/
theorem C20_confirm_failure_witness :
    (∀ ok ∈ [false], ok = false) ∧
      (PaymentPage.attempts sampleDraft ([false] ++ [false])).1 =
        { loading := false
          error := some "Failed to confirm payment. Please try again."
          showSuccess := false } ∧
      ∀ e ∈ (PaymentPage.attempts sampleDraft ([false] ++ [false])).2,
        e = PaymentEffect.addBooking { sampleDraft with status := "CONFIRMED" } :=
  ⟨by decide,
    (C20_confirm_failure sampleDraft PaymentPage.initialState []).2.2.2.2 [false] (by decide)⟩

/-! ### Failures, seat map stability, transfer list, seat counts -/

/-- C21: a failed cancel request leaves the booking list, the loading flag and
the filter as they were, sets the error banner to the cancel message and
issues no effect; a declined prompt issues no request, and the handler changes
no state before the request answers. -/
theorem C21_cancel_failure (st : BookingListState) (id : Int) :
    (BookingList.cancelFailed st).1.bookings = st.bookings ∧
      (BookingList.cancelFailed st).1.error =
        some "Failed to cancel booking. Please try again." ∧
      (BookingList.cancelFailed st).1.loading = st.loading ∧
      (BookingList.cancelFailed st).1.statusFilter = st.statusFilter ∧
      (BookingList.cancelFailed st).2 = [] ∧
      BookingList.handleCancelBooking false id = [] ∧
      BookingList.handleCancelBooking true id = [ListEffect.cancelBooking id] :=
  ⟨rfl, rfl, rfl, rfl, rfl, rfl, rfl⟩

/-- C23 (amended): a failed seat fetch sets the error of the form to the seat
message, a failed priority-info fetch leaves the error as it was, and both
leave the bus list, the user list, the form data, the selected seat type and
every other part of the state unchanged. -/
theorem C23_fetch_failures (st : BookingForm) :
    (AddBooking.seatsFailed st).error = some "Failed to load seat information" ∧
      (AddBooking.seatsFailed st).buses = st.buses ∧
      (AddBooking.seatsFailed st).users = st.users ∧
      (AddBooking.seatsFailed st).formData = st.formData ∧
      (AddBooking.seatsFailed st).selectedSeatType = st.selectedSeatType ∧
      (AddBooking.seatsFailed st).selectedBus = st.selectedBus ∧
      (AddBooking.seatsFailed st).availableSeats = st.availableSeats ∧
      (AddBooking.seatsFailed st).seatCounts = st.seatCounts ∧
      (AddBooking.seatsFailed st).userPriority = st.userPriority ∧
      (AddBooking.seatsFailed st).loading = st.loading ∧
      (AddBooking.seatsFailed st).priorityMessage = st.priorityMessage ∧
      AddBooking.priorityFailed st = st :=
  ⟨rfl, rfl, rfl, rfl, rfl, rfl, rfl, rfl, rfl, rfl, rfl, rfl⟩

/-- C23 as stated fails: the form of the sample passenger shows no error, the
request for the priority info fails, and the form still shows no error. -/
theorem C23_counterexample :
    passengerLoadedForm.error = none ∧
      (AddBooking.priorityFailed passengerLoadedForm).error = none := by
  decide

/-- C24: for every seat list, whatever the seat numbers are, the seats of the
rows read row by row are a permutation of the input seats, so every input seat
is in exactly one place of the seat map; the sort and the row loop are total
functions of the embedding and `parseInt` answers NaN where there is no
integer to read. -/
theorem C24_rows_hold_every_seat (availableSeats : List Seat) (selectedSeatNumber : String)
    (totalSeats : Nat) :
    ((SeatLayout.rows availableSeats selectedSeatNumber totalSeats).flatten).Perm
        (availableSeats.map (SeatLayout.toView selectedSeatNumber)) ∧
      ((SeatLayout.rows availableSeats selectedSeatNumber totalSeats).map List.length).sum =
        availableSeats.length ∧
      parseIntSliced (strSlice "" 1) = JSNumber.nan ∧
      parseIntSliced (strSlice "R" 1) = JSNumber.nan ∧
      parseIntSliced (strSlice "Rxy" 1) = JSNumber.nan := by
  have hperm : ((SeatLayout.rows availableSeats selectedSeatNumber totalSeats).flatten).Perm
      (availableSeats.map (SeatLayout.toView selectedSeatNumber)) := by
    rw [rows_flatten]
    exact arrSort_perm _ _
  refine ⟨hperm, ?_, by decide, by decide, by decide⟩
  rw [← List.length_flatten, hperm.length_eq, List.length_map]

/-- For seat numbers of the numbering scheme with a leading character of one
code unit and integers below `2 ^ 53`, the sorted seat list is in
non-decreasing order of the integer after the leading character. -/
theorem allSeats_sorted (availableSeats : List Seat) (selectedSeatNumber : String)
    (hshape : ∀ s ∈ availableSeats, seatNumberShape s.seatNumber = true)
    (hunit : ∀ s ∈ availableSeats, leadsWithOneUnit s.seatNumber = true)
    (hbound : ∀ s ∈ availableSeats, suffixValue s.seatNumber < 2 ^ 53) :
    (SeatLayout.allSeats availableSeats selectedSeatNumber).Pairwise
      (fun a b => suffixValue a.number ≤ suffixValue b.number) := by
  unfold SeatLayout.allSeats
  apply arrSort_pairwise
  intro a ha b hb
  obtain ⟨s, hs, rfl⟩ := List.mem_map.mp ha
  obtain ⟨t, ht, rfl⟩ := List.mem_map.mp hb
  exact compareSeats_pos (hshape s hs) (hshape t ht) (hunit s hs) (hunit t ht) (hbound s hs)
    (hbound t ht)

/-- Two lists in non-decreasing order of a key without repeated keys are equal
when one is a permutation of the other. -/
theorem eq_of_perm_of_sorted_key {α : Type} (key : α → Nat) {l1 l2 : List α}
    (hperm : l1.Perm l2) (h1 : l1.Pairwise (fun a b => key a ≤ key b))
    (h2 : l2.Pairwise (fun a b => key a ≤ key b)) (hnodup : (l1.map key).Nodup) :
    l1 = l2 := by
  have hnodup2 : (l2.map key).Nodup := (hperm.map key).nodup_iff.mp hnodup
  have hne1 : l1.Pairwise (fun a b => key a ≠ key b) := List.pairwise_map.mp hnodup
  have hne2 : l2.Pairwise (fun a b => key a ≠ key b) := List.pairwise_map.mp hnodup2
  have hlt1 : l1.Pairwise (fun a b => key a < key b) :=
    (h1.and hne1).imp (fun h => Nat.lt_of_le_of_ne h.1 h.2)
  have hlt2 : l2.Pairwise (fun a b => key a < key b) :=
    (h2.and hne2).imp (fun h => Nat.lt_of_le_of_ne h.1 h.2)
  haveI : IsAntisymm α (fun a b => key a < key b) :=
    ⟨fun a b hab hba => absurd hab (Nat.lt_asymm hba)⟩
  exact List.eq_of_perm_of_sorted hperm hlt1 hlt2

/-- C25 (amended): two seat lists that hold the same seats in any order, with
seat numbers made of one leading character that is a single UTF-16 code unit
and decimal digits whose integer values are below `2 ^ 53` and pairwise
distinct, give the same rows and the same rendered seat map for the same
selected seat number and seat type. -/
theorem C25_same_seat_map (seats1 seats2 : List Seat)
    (selectedSeatNumber selectedSeatType : String) (totalSeats : Nat)
    (hperm : seats1.Perm seats2)
    (hshape : ∀ s ∈ seats1, seatNumberShape s.seatNumber = true)
    (hunit : ∀ s ∈ seats1, leadsWithOneUnit s.seatNumber = true)
    (hbound : ∀ s ∈ seats1, suffixValue s.seatNumber < 2 ^ 53)
    (hdistinct : (seats1.map (fun s => suffixValue s.seatNumber)).Nodup) :
    SeatLayout.rows seats1 selectedSeatNumber totalSeats =
        SeatLayout.rows seats2 selectedSeatNumber totalSeats ∧
      SeatLayout.seatMap seats1 selectedSeatNumber selectedSeatType totalSeats =
        SeatLayout.seatMap seats2 selectedSeatNumber selectedSeatType totalSeats := by
  have hshape2 : ∀ s ∈ seats2, seatNumberShape s.seatNumber = true :=
    fun s hs => hshape s (hperm.symm.subset hs)
  have hunit2 : ∀ s ∈ seats2, leadsWithOneUnit s.seatNumber = true :=
    fun s hs => hunit s (hperm.symm.subset hs)
  have hbound2 : ∀ s ∈ seats2, suffixValue s.seatNumber < 2 ^ 53 :=
    fun s hs => hbound s (hperm.symm.subset hs)
  have hp1 : (SeatLayout.allSeats seats1 selectedSeatNumber).Perm
      (seats1.map (SeatLayout.toView selectedSeatNumber)) := arrSort_perm _ _
  have hp2 : (SeatLayout.allSeats seats2 selectedSeatNumber).Perm
      (seats2.map (SeatLayout.toView selectedSeatNumber)) := arrSort_perm _ _
  have hp : (SeatLayout.allSeats seats1 selectedSeatNumber).Perm
      (SeatLayout.allSeats seats2 selectedSeatNumber) :=
    hp1.trans ((hperm.map _).trans hp2.symm)
  have hkeys : ((SeatLayout.allSeats seats1 selectedSeatNumber).map
      (fun v => suffixValue v.number)).Nodup := by
    have h := (hp1.map (fun v : SeatView => suffixValue v.number)).nodup_iff
    rw [h, List.map_map]
    exact hdistinct
  have heq : SeatLayout.allSeats seats1 selectedSeatNumber =
      SeatLayout.allSeats seats2 selectedSeatNumber :=
    eq_of_perm_of_sorted_key (fun v : SeatView => suffixValue v.number) hp
      (allSeats_sorted seats1 selectedSeatNumber hshape hunit hbound)
      (allSeats_sorted seats2 selectedSeatNumber hshape2 hunit2 hbound2) hkeys
  have hrows : SeatLayout.rows seats1 selectedSeatNumber totalSeats =
      SeatLayout.rows seats2 selectedSeatNumber totalSeats := by
    unfold SeatLayout.rows
    rw [heq]
  refine ⟨hrows, ?_⟩
  unfold SeatLayout.seatMap
  rw [hrows]

/-- Witness of C25 (amended): the sample seats and the same seats in reverse
order. -/
theorem C25_same_seat_map_witness :
    SeatLayout.seatMap sampleSeats "R05" "REGULAR" 40 =
      SeatLayout.seatMap sampleSeats.reverse "R05" "REGULAR" 40 :=
  (C25_same_seat_map sampleSeats sampleSeats.reverse "R05" "REGULAR" 40
    (List.reverse_perm sampleSeats).symm (by decide) (by decide) (by decide) (by decide)).2

/-- C25 as stated fails, in two ways. The seat numbers R9007199254740993 and
R9007199254740992 have distinct numeric suffixes, the two lists hold the same
two seats in opposite orders, and each seat map keeps the order of its input,
because both suffixes parse to the same Number. And the two orders of the seat
whose number is the letter U+1D411 followed by 7 and the seat R6 give different
rows as well, because the comparator answers NaN for them. -/
theorem C25_counterexample :
    (([Seat.mk "R9007199254740993" "REGULAR" "AVAILABLE",
        Seat.mk "R9007199254740992" "REGULAR" "AVAILABLE"]).Perm
        [Seat.mk "R9007199254740992" "REGULAR" "AVAILABLE",
          Seat.mk "R9007199254740993" "REGULAR" "AVAILABLE"] ∧
      (∀ s ∈ [Seat.mk "R9007199254740993" "REGULAR" "AVAILABLE",
          Seat.mk "R9007199254740992" "REGULAR" "AVAILABLE"],
        seatNumberShape s.seatNumber = true) ∧
      suffixValue "R9007199254740993" ≠ suffixValue "R9007199254740992" ∧
      SeatLayout.rows [Seat.mk "R9007199254740993" "REGULAR" "AVAILABLE",
          Seat.mk "R9007199254740992" "REGULAR" "AVAILABLE"] "" 40 ≠
        SeatLayout.rows [Seat.mk "R9007199254740992" "REGULAR" "AVAILABLE",
          Seat.mk "R9007199254740993" "REGULAR" "AVAILABLE"] "" 40) ∧
    (boldLetterSeats.Perm boldLetterSeats.reverse ∧
      (∀ s ∈ boldLetterSeats, seatNumberShape s.seatNumber = true) ∧
      (boldLetterSeats.map (fun s => suffixValue s.seatNumber)) = [7, 6] ∧
      SeatLayout.rows boldLetterSeats "" 40 ≠ SeatLayout.rows boldLetterSeats.reverse "" 40) := by
  refine ⟨⟨List.Perm.swap _ _ _, by decide, by decide, ?_⟩,
    (List.reverse_perm boldLetterSeats).symm, by decide, by decide, ?_⟩
  · intro h
    have h2 := congrArg List.flatten h
    rw [rows_flatten, rows_flatten] at h2
    revert h2
    decide
  · intro h
    have h2 := congrArg List.flatten h
    rw [rows_flatten, rows_flatten] at h2
    revert h2
    decide

/-- C22: in an environment five hours behind UTC the date picker value
2024-03-15 is stored as 14-03-2024, the day before, and that string is what
the bus create payload carries; with local time equal to UTC the same value is
stored as 15-03-2024, and the empty value gives the empty string. -/
theorem C22_date_shifted :
    AddBus.formatDate (-300) "2024-03-15" = "14-03-2024" ∧
      (AddBus.handleChange (-300) AddBus.initialState "departureDate"
        "2024-03-15").formData.departureDate = "14-03-2024" ∧
      (AddBus.handleSubmit
        (AddBus.handleChange (-300) AddBus.initialState "departureDate" "2024-03-15")).2 =
        [AddBusEffect.addBus
          { name := "", route := "", departureDate := "14-03-2024", departureTime := "",
            arrivalTime := "", availableSeats := JSNumber.nan, totalSeats := JSNumber.nan,
            priceSource := "" }] ∧
      AddBus.formatDate 0 "2024-03-15" = "15-03-2024" ∧
      AddBus.formatDate (-300) "" = "" := by
  decide

/-- Attaching the bus leaves the status and the id of a booking as they were. -/
theorem attachBus_status (busData : Int → Option Bus) (booking : TransferBooking) :
    (TransferSeat.attachBus busData booking).status = booking.status ∧
      (TransferSeat.attachBus busData booking).id = booking.id := by
  unfold TransferSeat.attachBus
  split
  · split
    · split
      · exact ⟨rfl, rfl⟩
      · exact ⟨rfl, rfl⟩
    · exact ⟨rfl, rfl⟩
  · exact ⟨rfl, rfl⟩

/-- C26: the bookings offered for transfer are the bookings of the response
with status CONFIRMED, in their order in the response, each with its bus
attached when `fetchBusData` found one; every offered booking has status
CONFIRMED, so none is PENDING, CANCELLED or COMPLETED. -/
theorem C26_offered_bookings (busData : Int → Option Bus) (data : List TransferBooking)
    (st : TransferState) :
    (TransferSeat.bookingsLoaded busData st data).bookings =
        (data.filter (fun booking => decide (booking.status = "CONFIRMED"))).map
          (TransferSeat.attachBus busData) ∧
      (TransferSeat.bookingsLoaded busData st data).bookings.map (fun booking => booking.id) =
        (data.filter (fun booking => decide (booking.status = "CONFIRMED"))).map
          (fun booking => booking.id) ∧
      (∀ booking ∈ (TransferSeat.bookingsLoaded busData st data).bookings,
        booking.status = "CONFIRMED" ∧ booking.status ≠ "PENDING" ∧
          booking.status ≠ "CANCELLED" ∧ booking.status ≠ "COMPLETED") := by
  have h1 : (TransferSeat.bookingsLoaded busData st data).bookings =
      (data.filter (fun booking => decide (booking.status = "CONFIRMED"))).map
        (TransferSeat.attachBus busData) := by
    simp only [TransferSeat.bookingsLoaded, TransferSeat.confirmedBookings, List.filter_map]
    congr 1
    apply List.filter_congr
    intro booking _
    simp only [Function.comp, (attachBus_status busData booking).1]
  refine ⟨h1, ?_, ?_⟩
  · rw [h1, List.map_map]
    apply List.map_congr_left
    intro booking _
    exact (attachBus_status busData booking).2
  · intro booking hb
    rw [h1] at hb
    obtain ⟨b0, hb0, rfl⟩ := List.mem_map.mp hb
    have hs : b0.status = "CONFIRMED" := by simpa using (List.mem_filter.mp hb0).2
    rw [(attachBus_status busData b0).1, hs]
    exact ⟨rfl, by decide, by decide, by decide⟩

/-- C27: after a seat-count response the count shown for a key, REGULAR, ELDER
and PREGNANT among them, is the integer the response holds for the key and 0
when the response does not hold the key; for a response without any key the
seat distribution is not rendered at all. -/
theorem C27_shown_counts (st : BookingForm) (seats : List Seat)
    (counts : List (String × Int)) (key : String) :
    (AddBooking.seatsLoaded st seats counts).seatCounts = counts ∧
      (∀ n, AddBooking.countOf counts key = some n →
        AddBooking.shownCount (AddBooking.seatsLoaded st seats counts).seatCounts key = n) ∧
      (AddBooking.countOf counts key = none →
        AddBooking.shownCount (AddBooking.seatsLoaded st seats counts).seatCounts key = 0) ∧
      (counts = [] → AddBooking.countsShown (AddBooking.seatsLoaded st seats counts) = false) := by
  refine ⟨rfl, ?_, ?_, ?_⟩
  · intro n hn
    simp only [AddBooking.seatsLoaded, AddBooking.shownCount, hn]
    split
    · rfl
    · rename_i h
      simp only [ne_eq, Decidable.not_not] at h
      exact h.symm
  · intro hn
    simp only [AddBooking.seatsLoaded, AddBooking.shownCount, hn]
  · intro hempty
    simp [AddBooking.seatsLoaded, AddBooking.countsShown, hempty]

/-- Witness of C27: a response with 12 REGULAR and 4 ELDER seats and no
PREGNANT key shows 12, 4 and 0. -/
theorem C27_shown_counts_witness :
    AddBooking.shownCount
        (AddBooking.seatsLoaded passengerLoadedForm sampleSeats
          [("REGULAR", 12), ("ELDER", 4)]).seatCounts "REGULAR" = 12 ∧
      AddBooking.shownCount
        (AddBooking.seatsLoaded passengerLoadedForm sampleSeats
          [("REGULAR", 12), ("ELDER", 4)]).seatCounts "PREGNANT" = 0 :=
  ⟨(C27_shown_counts passengerLoadedForm sampleSeats [("REGULAR", 12), ("ELDER", 4)]
      "REGULAR").2.1 12 (by decide),
    (C27_shown_counts passengerLoadedForm sampleSeats [("REGULAR", 12), ("ELDER", 4)]
      "PREGNANT").2.2.1 (by decide)⟩

/-- C28: after a confirmation whose request succeeded, loading is false while
the success indicator is shown and the one effect is the navigation scheduled
2000 ms later; the confirm button is enabled, and a second confirmation issues
the create-booking request again with the payload of the first. -/
theorem C28_second_confirm (bookingData : BookingData) (st : PaymentState) :
    (PaymentPage.confirmSucceeded
        (PaymentPage.handleConfirmPayment bookingData st).1).1.loading = false ∧
      (PaymentPage.confirmSucceeded
        (PaymentPage.handleConfirmPayment bookingData st).1).1.showSuccess = true ∧
      (PaymentPage.confirmSucceeded (PaymentPage.handleConfirmPayment bookingData st).1).2 =
        [PaymentEffect.navigateAfter 2000 "/bookings"] ∧
      PaymentPage.confirmDisabled
        (PaymentPage.confirmSucceeded (PaymentPage.handleConfirmPayment bookingData st).1).1
        = false ∧
      (PaymentPage.handleConfirmPayment bookingData
        (PaymentPage.confirmSucceeded (PaymentPage.handleConfirmPayment bookingData st).1).1).2 =
        [PaymentEffect.addBooking (PaymentPage.bookingPayload bookingData)] ∧
      (PaymentPage.handleConfirmPayment bookingData st).2 =
        [PaymentEffect.addBooking (PaymentPage.bookingPayload bookingData)] :=
  ⟨rfl, rfl, rfl, rfl, rfl, rfl⟩

/-- A priority response keeps a non-empty priority message non-empty. -/
theorem priorityLoaded_message_kept (st : BookingForm) (priorityInfo : UserPriorityInfo)
    (h : st.priorityMessage ≠ "") :
    (AddBooking.priorityLoaded st priorityInfo).priorityMessage ≠ "" := by
  unfold AddBooking.priorityLoaded
  simp only
  split
  · split
    · split
      · show "You are eligible for pregnant priority seating." ≠ ""
        decide
      · split
        · show "You are eligible for elderly priority seating." ≠ ""
          decide
        · exact h
    · exact h
  · exact h

/-- An event keeps a non-empty priority message non-empty. -/
theorem step_message_kept (currentUser : Option AuthUser) (st : BookingForm)
    (e : AddBooking.Event) (h : st.priorityMessage ≠ "") :
    (AddBooking.step currentUser st e).priorityMessage ≠ "" := by
  cases e with
  | change name value =>
    simp only [AddBooking.step]
    rw [(handleChange_view currentUser st name value).2.2]
    exact h
  | seatTypeChange value => exact h
  | seatClick seat =>
    simp only [AddBooking.step]
    split
    · rw [(clickSeat_view st seat).2.2]
      exact h
    · exact h
  | seatsResponse seats counts => exact h
  | priorityResponse priorityInfo => exact priorityLoaded_message_kept st priorityInfo h

/-- C29: once the priority message is non-empty it is non-empty after every
run of events and after every priority response; a response with both flags
false, and a response without a recommended seat type, leave the message
exactly as it was, so a message is set only by a response that carries a
recommended seat type; the data and submit handlers leave it as well. -/
theorem C29_message_never_cleared (currentUser : Option AuthUser)
    (busIdFromUrl : Option String) (st : BookingForm) (events : List AddBooking.Event)
    (priorityInfo : UserPriorityInfo) :
    (st.priorityMessage ≠ "" →
        (AddBooking.run currentUser st events).priorityMessage ≠ "") ∧
      (st.priorityMessage ≠ "" →
        (AddBooking.priorityLoaded st priorityInfo).priorityMessage ≠ "") ∧
      (priorityInfo.elderlyPriorityEligible = false →
        priorityInfo.pregnantPriorityEligible = false →
        (AddBooking.priorityLoaded st priorityInfo).priorityMessage = st.priorityMessage) ∧
      ((priorityInfo.recommendedSeatType = none ∨ priorityInfo.recommendedSeatType = some "") →
        (AddBooking.priorityLoaded st priorityInfo).priorityMessage = st.priorityMessage) ∧
      (AddBooking.priorityFailed st).priorityMessage = st.priorityMessage ∧
      (AddBooking.handleSubmit st).1.priorityMessage = st.priorityMessage ∧
      (∀ busesData usersData,
        (AddBooking.dataLoaded currentUser busIdFromUrl st busesData
          usersData).1.priorityMessage = st.priorityMessage) := by
  refine ⟨?_, priorityLoaded_message_kept st priorityInfo, ?_, ?_, rfl,
    (handleSubmit_view st).2.2, fun b u => (dataLoaded_view currentUser busIdFromUrl st b u).2.2⟩
  · intro h
    unfold AddBooking.run
    induction events generalizing st with
    | nil => exact h
    | cons e rest ih =>
      rw [List.foldl_cons]
      exact ih (AddBooking.step currentUser st e) (step_message_kept currentUser st e h)
  · intro he hp
    obtain ⟨elderly, pregnant, rec⟩ := priorityInfo
    simp only at he hp
    subst he
    subst hp
    unfold AddBooking.priorityLoaded
    simp only
    split
    · split
      · rfl
      · rfl
    · rfl
  · intro h
    rcases h with h | h
    · simp only [AddBooking.priorityLoaded, h]
    · have hf : strTruthy "" = false := by decide
      simp only [AddBooking.priorityLoaded, h, hf, Bool.false_eq_true, if_false]

/-- Witness of C29: after the run in which user 9 was found eligible for
elderly seating, the administrator picks user 7, who is eligible for nothing;
the elderly message is still shown. -/
theorem C29_message_never_cleared_witness :
    (AddBooking.run (some sampleAdmin)
        (AddBooking.run (some sampleAdmin) adminLoadedForm adminReselectsUser)
        [AddBooking.Event.change "userId" "7",
         AddBooking.Event.priorityResponse
           { elderlyPriorityEligible := false, pregnantPriorityEligible := false,
             recommendedSeatType := some "REGULAR" }]).priorityMessage ≠ "" ∧
      (AddBooking.run (some sampleAdmin)
        (AddBooking.run (some sampleAdmin) adminLoadedForm adminReselectsUser)
        [AddBooking.Event.change "userId" "7",
         AddBooking.Event.priorityResponse
           { elderlyPriorityEligible := false, pregnantPriorityEligible := false,
             recommendedSeatType := some "REGULAR" }]).priorityMessage =
        "You are eligible for elderly priority seating." :=
  ⟨(C29_message_never_cleared (some sampleAdmin) none
      (AddBooking.run (some sampleAdmin) adminLoadedForm adminReselectsUser)
      [AddBooking.Event.change "userId" "7",
       AddBooking.Event.priorityResponse
         { elderlyPriorityEligible := false, pregnantPriorityEligible := false,
           recommendedSeatType := some "REGULAR" }]
      { elderlyPriorityEligible := false, pregnantPriorityEligible := false,
        recommendedSeatType := some "REGULAR" }).1 (by decide),
    by decide⟩

/-- C30: for every seat list, selected seat number and selected seat type, any
two values of `totalSeats`, the default 40 among them, give the same rows and
the same rendered seat map, display states and selectable marks included. -/
theorem C30_total_seats_unread (availableSeats : List Seat)
    (selectedSeatNumber selectedSeatType : String) (totalSeats otherTotalSeats : Nat) :
    SeatLayout.rows availableSeats selectedSeatNumber totalSeats =
        SeatLayout.rows availableSeats selectedSeatNumber otherTotalSeats ∧
      SeatLayout.seatMap availableSeats selectedSeatNumber selectedSeatType totalSeats =
        SeatLayout.seatMap availableSeats selectedSeatNumber selectedSeatType otherTotalSeats ∧
      SeatLayout.rows availableSeats selectedSeatNumber totalSeats =
        SeatLayout.rows availableSeats selectedSeatNumber 40 ∧
      SeatLayout.seatMap availableSeats selectedSeatNumber selectedSeatType totalSeats =
        SeatLayout.seatMap availableSeats selectedSeatNumber selectedSeatType 40 :=
  ⟨rfl, rfl, rfl, rfl⟩


end BusBooking
